import Mathlib

/-!
Verification development for the FlightOps Planner schedule parsing,
turnaround linking and slot expansion engine.

The Python source is shallowly embedded as follows.

* Text is modelled as `List Char` (named `Str`); Python string helpers
  (strip, upper, startswith, int conversion, ...) are re-implemented over
  character lists with ASCII semantics, which is the alphabet the parser
  normalises to.
* Timestamps are integers counting minutes since the fixed UTC epoch
  1970-01-01T00:00Z.  The schedule formats carry minute resolution, and
  every duration in the engine (turnaround bounds, service windows, slot
  granularities) is a whole number of minutes, so arithmetic that the
  source performs on `pandas.Timestamp`/`timedelta` values is exact
  integer arithmetic here.  Missing timestamps (`NaT`) are `none`.
* `pandas.DataFrame` tables are lists of records, one structure per row
  kind; boolean masks become `List.filter`, `sort_values` becomes a
  stable insertion sort on the sort key (`sort_values` is deterministic
  on the inputs considered, and the order of rows with equal keys is
  never load bearing for the properties proved here).
* Name-based UUID generation (`uuid5`) is modelled as an injective
  tagging of the generated key, which captures exactly the properties the
  engine relies on: determinism and collision freedom of the name hash.
* Fallible code returns `Except Str` / `Option`.
-/

/-! ## ASCII string model -/

abbrev Str : Type := List Char

/-- Shorthand to inject a Lean string literal into the `List Char` model. -/
def str (s : String) : Str := s.data

/-- Uppercases one ASCII character, as Python `str.upper` does per character. -/
def upperChar (c : Char) : Char :=
  if 'a' ≤ c ∧ c ≤ 'z' then Char.ofNat (c.toNat - 32) else c

/-- Python `str.upper` over the ASCII alphabet used by the feed. -/
def upperStr (s : Str) : Str := s.map upperChar

/-- Whitespace recognised by Python `str.strip` (ASCII subset). -/
def isSpaceChar (c : Char) : Bool := c = ' ' ∨ c = '\t' ∨ c = '\n' ∨ c = '\r'

/-- Python `str.lstrip`. -/
def lstripStr (s : Str) : Str := s.dropWhile isSpaceChar

/-- Python `str.strip`. -/
def stripStr (s : Str) : Str := ((lstripStr s).reverse.dropWhile isSpaceChar).reverse

def isDigitChar (c : Char) : Bool := '0' ≤ c ∧ c ≤ '9'

/-- Numeric value of a digit string (helper for `pyInt`). -/
def digitsToNat (s : Str) : Nat := s.foldl (fun acc c => acc * 10 + (c.toNat - 48)) 0

/-- Python `int(s)` on a base-10 string: optional sign after stripping
whitespace, then at least one digit; anything else raises, modelled as
`none`. -/
def pyInt (s : Str) : Option Int :=
  match stripStr s with
  | [] => none
  | '+' :: rest =>
      if rest ≠ [] ∧ rest.all isDigitChar then some (digitsToNat rest) else none
  | '-' :: rest =>
      if rest ≠ [] ∧ rest.all isDigitChar then some (-(digitsToNat rest : Int)) else none
  | c :: rest =>
      if (c :: rest).all isDigitChar then some (digitsToNat (c :: rest)) else none

/-- Python `str.startswith`. -/
def startsWithStr (p s : Str) : Bool := List.isPrefixOf p s

/-- Python `str.endswith`. -/
def endsWithStr (p s : Str) : Bool := List.isPrefixOf p.reverse s.reverse

/-- Python `str.isalpha` restricted to the ASCII letters that airport codes
use. -/
def isAlphaStr (s : Str) : Bool :=
  s ≠ [] && s.all (fun c => ('A' ≤ c ∧ c ≤ 'Z') ∨ ('a' ≤ c ∧ c ≤ 'z'))

/-- Python `s.split(d)` for a single-character delimiter. -/
def splitOnChar (d : Char) (s : Str) : List Str :=
  s.foldr
    (fun c acc =>
      match acc with
      | [] => if c = d then [[], []] else [[c]]
      | g :: rest => if c = d then [] :: g :: rest else (c :: g) :: rest)
    [[]]

/-- Python `s[a:b]` on character lists. -/
def sliceStr (s : Str) (a b : Nat) : Str := (s.take b).drop a

/-! ## Slot arithmetic (`slot_utils.py`) -/

/-- Python `int(x)` applied to the exact rational `t / g`: truncation toward
zero.  The source computes `slots = diff.total_seconds() / delta.total_seconds()`
in floating point; on minute-resolution timestamps and the small granularities
the engine uses, the float result is within `1e-10` slots of the exact value
and every comparison made on it has slack at least `1/g`, except for the
half-slot test which the source itself widens by an explicit `1e-9` tolerance
(transcribed below), so exact integer arithmetic is a faithful model. -/
def intTruncDiv (t g : Int) : Int :=
  if 0 ≤ t then ((t.toNat / g.toNat : Nat) : Int) else -(((((-t).toNat) / g.toNat : Nat) : Int))

/-- `round_to_slot` from `slot_utils.py`: round a timestamp to the nearest
slot with tie-breaking upwards; `NaT` propagates.  `rounded = int(slots)`,
`diff_fraction = slots - rounded`, and the slot index is bumped when
`diff_fraction > 0.5 or abs(diff_fraction - 0.5) < 1e-9`.  With
`diff_fraction = r / g` (for `r = t - rounded * g`), those two tests are the
integer tests `2 * r > g` and `|2 * r - g| * 10 ^ 9 < 2 * g`. -/
def round_to_slot (ts : Option Int) (minutes : Int) : Option Int :=
  match ts with
  | none => none
  | some t =>
      let rounded := intTruncDiv t minutes
      let r := t - rounded * minutes
      let bump : Bool :=
        decide (2 * r > minutes) || decide ((2 * r - minutes).natAbs * 1000000000 < (2 * minutes).toNat)
      some ((if bump then rounded + 1 else rounded) * minutes)

/-- `slot_range` from `slot_utils.py`: inclusive ascending sequence of slots
from `start` to `e` stepped by the granularity (`pd.date_range`); empty when
either endpoint is `NaT` or `e < start`. -/
def slot_range (start e : Option Int) (minutes : Int) : List Int :=
  match start, e with
  | some s, some en =>
      if en < s then []
      else (List.range ((en - s).toNat / minutes.toNat + 1)).map (fun (i : Nat) => s + (i : Int) * minutes)
  | _, _ => []

/-- `expand_slots` from `slot_utils.py`. -/
def expand_slots (base : Option Int) (before after : Int) (minutes : Int) : List Int :=
  match base with
  | none => []
  | some b =>
      slot_range (round_to_slot (some (b - before)) minutes)
        (round_to_slot (some (b + after)) minutes) minutes

/-! ## Classification rules (`classifiers.py`) -/

def WIDE_BODY_TYPES : List Str :=
  [str "772", str "773", str "77W", str "77L", str "787", str "788", str "789",
   str "78X", str "330", str "332", str "333", str "339", str "359", str "764",
   str "763", str "A35K", str "A359"]

def NARROW_BODY_PREFIXES : List Str :=
  [str "73", str "32", str "E19", str "E17", str "E18", str "E14", str "B73"]

def ATR_PREFIXES : List Str := [str "ATR", str "AT4", str "AT7"]

def LIGHT_PREFIXES : List Str := [str "C", str "P", str "BE", str "SR", str "TB", str "PA"]

def A321_CODES : List Str := [str "321", str "32R"]

def GOL_MELI_EQUIPMENT : List Str := [str "73C", str "73M"]

def GOL_CARGO_CIAS : List Str := [str "G3"]

def CARGO_SERVICE_TYPES : List Str := [str "F", str "M", str "C", str "G"]

/-- `classify_aircraft` from `classifiers.py`.  Seat counts reach this
function as the parser-produced nullable integers, so the
`int(float(assentos_previstos))` conversion is the identity on `some` values
and the `pd.isna` guard is the `none` test. -/
def classify_aircraft (act_type : Str) (is_cargo : Bool) (cia : Option Str)
    (service_type : Option Str) (assentos_previstos : Option Int) : Str :=
  let code := upperStr (stripStr act_type)
  if code = [] then str "UNKNOWN"
  else
    let carrier := upperStr (stripStr (cia.getD []))
    let svc := upperStr (stripStr (service_type.getD []))
    let cargo_flag := is_cargo || endsWithStr (str "F") code || CARGO_SERVICE_TYPES.contains svc
    let seat_le_50 : Bool :=
      match assentos_previstos with
      | some n => decide (n ≤ 50)
      | none => false
    if GOL_CARGO_CIAS.contains carrier &&
        (GOL_MELI_EQUIPMENT.contains code || cargo_flag || seat_le_50) then str "GOL_MELI"
    else if cargo_flag then str "CARGO"
    else if A321_CODES.contains code then str "A321"
    else if ATR_PREFIXES.any (fun p => startsWithStr p code) then str "ATR"
    else if WIDE_BODY_TYPES.contains code then str "WIDE"
    else if NARROW_BODY_PREFIXES.any (fun p => startsWithStr p code) then str "NARROW"
    else if LIGHT_PREFIXES.any (fun p => startsWithStr p code) then str "CESNNA"
    else str "NARROW"

/-- `classify_domestic` from `classifiers.py`.  The optional country map is a
lookup table; Python treats both `None` and an empty dict as absent
(`if airport_country_map:`), so both are modelled by the empty list.  A
country resolved to an empty string is falsy in Python and also falls back to
the heuristic. -/
def classify_domestic (origem destino : Str) (airport_country_map : List (Str × Str)) : Str :=
  let origin := upperStr origem
  let destination := upperStr destino
  let viaMap : Option Str :=
    if airport_country_map.isEmpty then none
    else
      match airport_country_map.lookup origin, airport_country_map.lookup destination with
      | some oc, some dc =>
          if oc ≠ [] ∧ dc ≠ [] then some (if oc = dc then str "DOM" else str "INT") else none
      | _, _ => none
  match viaMap with
  | some r => r
  | none =>
      if origin.length = 3 && destination.length = 3 &&
          isAlphaStr origin && isAlphaStr destination then str "DOM"
      else str "INT"

/-- `classify_operation` from `classifiers.py`: `PNT` for a ground time above
240 minutes, `TST` otherwise, `None` when the ground time is unknown. -/
def classify_operation (solo_minutes : Option Int) : Option Str :=
  match solo_minutes with
  | none => none
  | some m => some (if m > 240 then str "PNT" else str "TST")

/-! ## Data model shared by the pipeline and the linker -/

/-- The slice of `config.Settings` consumed by the engine. -/
structure Settings where
  min_turnaround_minutes : Int
  solo_open_minutes : Int
  rounding_granularity_minutes : Int
  default_season : Option Str
deriving DecidableEq

/-- Models Python `uuid5(NAMESPACE_URL, key)`: a deterministic name-based
hash, collision free on the keys the engine feeds it; modelled as an
injective tagging of the key. -/
def uuid5 (key : Str) : Str := str "uuid5:" ++ key

/-- One parsed schedule leg before the pipeline assigns `flight_id`
(a row of the `DataFrame` returned by `parse_schedule_text`). -/
structure RawLeg where
  cia : Str
  numero_voo : Str
  act_type : Str
  origem : Str
  destino : Str
  dt_partida_utc : Option Int
  dt_chegada_utc : Option Int
  natureza : Option Str
  service_type : Option Str
  assentos_previstos : Option Int
  temporada : Option Str
  aeroporto_operacao : Option Str
deriving DecidableEq

/-- A leg row after `_assign_raw_ids` added the deterministic `flight_id`. -/
structure Leg where
  cia : Str
  numero_voo : Str
  act_type : Str
  origem : Str
  destino : Str
  dt_partida_utc : Option Int
  dt_chegada_utc : Option Int
  natureza : Option Str
  service_type : Option Str
  assentos_previstos : Option Int
  temporada : Option Str
  aeroporto_operacao : Option Str
  flight_id : Str
deriving DecidableEq

/-! ## Turnaround linker (`linker.py`) -/

/-- One arrival or departure event row produced by `_prepare_events`. -/
structure Event where
  cia : Str
  numero_voo : Str
  act_type : Str
  origem : Str
  destino : Str
  natureza : Option Str
  service_type : Option Str
  assentos_previstos : Option Int
  flight_id : Str
  evento : Str
  timestamp_evento : Int
  numero_voo_evento : Str
  event_id : Str
deriving DecidableEq

def mkArrEvent (airport : Str) (l : Leg) (t : Int) : Event :=
  { cia := l.cia, numero_voo := l.numero_voo, act_type := l.act_type,
    origem := l.origem, destino := l.destino, natureza := l.natureza,
    service_type := l.service_type, assentos_previstos := l.assentos_previstos,
    flight_id := l.flight_id, evento := str "ARR", timestamp_evento := t,
    numero_voo_evento := l.numero_voo,
    event_id := uuid5 (l.flight_id ++ str ":ARR:" ++ airport) }

def mkDepEvent (airport : Str) (l : Leg) (t : Int) : Event :=
  { cia := l.cia, numero_voo := l.numero_voo, act_type := l.act_type,
    origem := l.origem, destino := l.destino, natureza := l.natureza,
    service_type := l.service_type, assentos_previstos := l.assentos_previstos,
    flight_id := l.flight_id, evento := str "DEP", timestamp_evento := t,
    numero_voo_evento := l.numero_voo,
    event_id := uuid5 (l.flight_id ++ str ":DEP:" ++ airport) }

/-- Stable insertion of an event into a list sorted ascending by timestamp
(rows with equal timestamps keep their original relative order, as the
deterministic sorts of the source do on the inputs considered). -/
def insertByTs (e : Event) : List Event → List Event
  | [] => [e]
  | x :: xs =>
      if e.timestamp_evento ≤ x.timestamp_evento then e :: x :: xs else x :: insertByTs e xs

/-- Stable sort ascending by `timestamp_evento` (`sort_values`). -/
def sortByTs (l : List Event) : List Event := l.foldr insertByTs []

/-- The arrival half of `_prepare_events`: legs whose destination is the
airport, tagged `ARR`, with the arrival timestamp as event time, rows with a
missing timestamp dropped, sorted ascending by event time.  A `none`
timestamp models a missing cell of a present column; the `KeyError` the
source raises when the column is absent from the frame altogether is
frame-level information handled by `link_airport_run` below. -/
def prepare_arrivals (frame : List Leg) (airport : Str) : List Event :=
  sortByTs (((frame.filter (fun l => l.destino == airport)).filterMap
    (fun l => (l.dt_chegada_utc).map (fun t => mkArrEvent airport l t))))

/-- The departure half of `_prepare_events`. -/
def prepare_departures (frame : List Leg) (airport : Str) : List Event :=
  sortByTs (((frame.filter (fun l => l.origem == airport)).filterMap
    (fun l => (l.dt_partida_utc).map (fun t => mkDepEvent airport l t))))

/-- `_build_departure_lookup` bucket for one `(carrier, aircraft type)` key:
departures inserted in sorted order then stably re-sorted by timestamp, which
is the order-preserving filter of the already-sorted departures list. -/
def departure_candidates (departures : List Event) (cia act_type : Str) : List Event :=
  departures.filter (fun d => d.cia == cia && d.act_type == act_type)

/-- `abs(int(candidate_number) - int(arrival_number))`; `none` when either
flight number fails Python `int` conversion (the `try/except` in the scan). -/
def number_diff (cand_number arrival_number : Str) : Option Nat :=
  match pyInt cand_number, pyInt arrival_number with
  | some x, some y => some (x - y).natAbs
  | _, _ => none

/-- The running best candidate of the scan: the candidate, its time
difference from the arrival, and its flight-number distance. -/
structure Best where
  cand : Event
  diff : Int
  ndiff : Option Nat
deriving DecidableEq

/-- The candidate scan of `link_airport`: walk candidates in ascending time
order, skip consumed ones and ones before the earliest bound, stop at the
first past the ceiling, and keep the best candidate under the
smallest-time-difference rule with the flight-number tie-break.  The
tie-break guard transcribes `elif best_diff and diff == best_diff and
number_diff is not None:` — note that a zero `best_diff` is falsy. -/
def scan_better (best : Option Best) (diff : Int) (nd : Option Nat) : Bool :=
  match best with
  | none => true
  | some b =>
      if diff < b.diff then true
      else if b.diff ≠ 0 ∧ diff = b.diff ∧ nd.isSome then
        match b.ndiff, nd with
        | none, _ => true
        | some bn, some n => decide (n < bn)
        | some _, none => false
      else false

def scan_candidates (arrival_ts : Int) (arrival_number : Str) (earliest latest : Int)
    (used : List Str) : List Event → Option Best → Option Best
  | [], best => best
  | c :: rest, best =>
      if used.contains c.event_id then
        scan_candidates arrival_ts arrival_number earliest latest used rest best
      else if c.timestamp_evento < earliest then
        scan_candidates arrival_ts arrival_number earliest latest used rest best
      else if c.timestamp_evento > latest then best
      else
        let diff := c.timestamp_evento - arrival_ts
        let nd := number_diff c.numero_voo_evento arrival_number
        scan_candidates arrival_ts arrival_number earliest latest used rest
          (if scan_better best diff nd then some ⟨c, diff, nd⟩ else best)

/-- One row of the `voos_tratados` output table. -/
structure TreatedRow where
  voo_id : Str
  temporada : Str
  aeroporto : Str
  cia : Str
  act_type : Str
  classe_aeronave : Str
  chegada_utc : Int
  chegada_slot : Option Int
  partida_utc : Option Int
  partida_slot : Option Int
  solo_min : Int
  pnt_tst : Option Str
  dom_int : Str
  link_status : Str
  numero_voo_in : Str
  numero_voo_out : Option Str
  origem : Str
  destino : Str
  arrival_event_id : Str
  arrival_flight_id : Str
  departure_event_id : Option Str
  departure_flight_id : Option Str
deriving DecidableEq

/-- One row of the `slots_atendimento` (service slots) output table. -/
structure AtendimentoRow where
  voo_id : Str
  slot_ts : Int
  fase : Str
  temporada : Str
  aeroporto : Str
  cia : Str
  classe_aeronave : Str
  dom_int : Str
  pnt_tst : Option Str
  numero_voo : Option Str
deriving DecidableEq

/-- One row of the `slots_solo` (ground occupancy slots) output table. -/
structure SoloRow where
  voo_id : Str
  slot_ts : Int
  temporada : Str
  aeroporto : Str
  cia : Str
  classe_aeronave : Str
  dom_int : Str
  pnt_tst : Option Str
  atendimento_embarque_desembarque : Bool
  atendimento_limpeza : Bool
deriving DecidableEq

/-- `_slot_overlaps` from `linker.py`: the slot `[t, t + granularity)`
intersects the half-open window `[w_start, w_end)`, with an absent or
ill-formed window never matching. -/
def slot_overlaps (slot_ts : Int) (minutes : Int)
    (window_start window_end : Option Int) : Bool :=
  match window_start, window_end with
  | some ws, some we =>
      if we ≤ ws then false else decide (slot_ts < we) && decide (slot_ts + minutes > ws)
  | _, _ => false

/-- Stable insertion by span start (`sorted(spans, key=start)`). -/
def insertBySpanStart (e : Int × Int) : List (Int × Int) → List (Int × Int)
  | [] => [e]
  | x :: xs => if e.1 ≤ x.1 then e :: x :: xs else x :: insertBySpanStart e xs

def sortSpans (l : List (Int × Int)) : List (Int × Int) := l.foldr insertBySpanStart []

/-- The merging fold of `_merge_spans` over the start-sorted spans. -/
def merge_sorted_spans : Int × Int → List (Int × Int) → List (Int × Int)
  | cur, [] => [cur]
  | (cs, ce), (s, e) :: rest =>
      if s ≤ ce then merge_sorted_spans (cs, max ce e) rest
      else (cs, ce) :: merge_sorted_spans (s, e) rest

/-- `_merge_spans` from `linker.py`. -/
def merge_spans (spans : List (Int × Int)) : List (Int × Int) :=
  match sortSpans spans with
  | [] => []
  | x :: rest => merge_sorted_spans x rest

/-- Total length of a span list (the `covered` sum in `link_airport`). -/
def spans_length (spans : List (Int × Int)) : Int :=
  spans.foldl (fun acc p => acc + (p.2 - p.1)) 0

/-- The `full_attendance` computation of `link_airport`: for a linked
arrival, whether the union of the arrival-window and departure-window spans,
each clipped to the ground-occupancy interval, covers the whole ground
duration within a one-minute tolerance. -/
def full_attendance_flag (arrival_time : Int) (departure_time : Option Int) : Bool :=
  match departure_time with
  | none => false
  | some dep =>
      let ground_start := arrival_time
      let ground_end := dep
      if ground_end > ground_start then
        let arr_start := max (arrival_time - 10) ground_start
        let arr_end := min (arrival_time + 30) ground_end
        let dep_start := max (dep - 30) ground_start
        let dep_end := min (dep + 10) ground_end
        let spans := (if arr_end > arr_start then [(arr_start, arr_end)] else []) ++
          (if dep_end > dep_start then [(dep_start, dep_end)] else [])
        let covered := spans_length (merge_spans spans)
        let ground_duration := ground_end - ground_start
        decide (covered ≥ ground_duration - 1)
      else false

/-- The ground-occupancy flag computation of `link_airport` for one slot:
`full_attendance` or overlap with the arrival passenger window, else overlap
with the departure passenger window when one exists. -/
def ground_slot_flag (slot_minutes : Int) (arrival_time : Int) (departure_time : Option Int)
    (slot : Int) : Bool :=
  let over_arrival := slot_overlaps slot slot_minutes (some (arrival_time - 10))
    (some (arrival_time + 30))
  let is_emb0 := full_attendance_flag arrival_time departure_time || over_arrival
  if !is_emb0 && (departure_time.map (fun dep => dep - 30)).isSome &&
      (departure_time.map (fun dep => dep + 10)).isSome then
    slot_overlaps slot slot_minutes (departure_time.map (fun dep => dep - 30))
      (departure_time.map (fun dep => dep + 10))
  else is_emb0

/-- The ground-slot expansion of `link_airport` for one arrival: the
occupancy slot range from the rounded arrival slot to the rounded departure
slot (or the rounded open horizon when unlinked), each slot carrying the
passenger-service and cleaning flags. -/
def ground_slot_rows (season airport voo_id cia classe dom_int : Str) (pnt_tst : Option Str)
    (settings : Settings) (arrival_time : Int) (departure_time : Option Int)
    (chegada_slot partida_slot : Option Int) : List SoloRow :=
  let slot_minutes := settings.rounding_granularity_minutes
  let solo_end := match partida_slot with
    | some ps => some ps
    | none => round_to_slot (some (arrival_time + settings.solo_open_minutes)) slot_minutes
  let solo_slots := slot_range chegada_slot solo_end slot_minutes
  solo_slots.map (fun slot =>
    { voo_id := voo_id, slot_ts := slot, temporada := season, aeroporto := airport,
      cia := cia, classe_aeronave := classe, dom_int := dom_int, pnt_tst := pnt_tst,
      atendimento_embarque_desembarque := ground_slot_flag slot_minutes arrival_time
        departure_time slot,
      atendimento_limpeza := slot_overlaps slot slot_minutes (some (arrival_time - 10))
        (some (arrival_time + 10)) })

/-- Output of processing one arrival inside the `link_airport` loop: the
single treated row, the service-slot and ground-slot rows appended for it,
and the updated consumed-departures set. -/
structure ArrivalOut where
  treated : TreatedRow
  atendimento : List AtendimentoRow
  solo : List SoloRow
  used_out : List Str
deriving DecidableEq

/-- The body of the `for _, arrival in arrivals.iterrows()` loop of
`link_airport`, for one arrival, given the consumed-departures set
accumulated so far. -/
def process_arrival (airport season : Str) (settings : Settings)
    (airport_country_map : List (Str × Str)) (departures : List Event)
    (used : List Str) (arrival : Event) : ArrivalOut :=
  let slot_minutes := settings.rounding_granularity_minutes
  let candidates := departure_candidates departures arrival.cia arrival.act_type
  let arrival_time := arrival.timestamp_evento
  let earliest := arrival_time + settings.min_turnaround_minutes
  let latest := arrival_time + 36 * 60
  let best := scan_candidates arrival_time arrival.numero_voo earliest latest used candidates none
  let used2 := match best with
    | some b => b.cand.event_id :: used
    | none => used
  let departure_time : Option Int := (best.map (fun b => b.cand.timestamp_evento))
  let link_status := match best with
    | some _ => str "linked"
    | none => str "no_departure"
  let numero_voo_out : Option Str := best.map (fun b => b.cand.numero_voo)
  let destino := match best with
    | some b => b.cand.destino
    | none => arrival.destino
  let departure_event_id : Option Str := best.map (fun b => b.cand.event_id)
  let departure_flight_id : Option Str := best.map (fun b => b.cand.flight_id)
  let chegada_slot := round_to_slot (some arrival_time) slot_minutes
  let partida_slot := round_to_slot departure_time slot_minutes
  let solo_minutes : Int := match departure_time with
    | some dep => dep - arrival_time
    | none => settings.solo_open_minutes
  let natureza := upperStr (stripStr (arrival.natureza.getD []))
  let is_cargo_flag := natureza = str "CARGO" ∨ natureza = str "CARGA"
  -- the `none` branch of the natureza access is unreachable under
  -- `link_airport_run`, which raises the source TypeError first
  let classe := classify_aircraft arrival.act_type is_cargo_flag (some arrival.cia)
    arrival.service_type arrival.assentos_previstos
  let dom_int := classify_domestic arrival.origem destino airport_country_map
  let pnt_tst := classify_operation (some solo_minutes)
  let voo_id := uuid5 (season ++ str ":" ++ airport ++ str ":" ++ arrival.event_id ++ str ":" ++
    (match departure_event_id with | some d => d | none => str "na"))
  let treated : TreatedRow :=
    { voo_id := voo_id, temporada := season, aeroporto := airport,
      cia := arrival.cia, act_type := arrival.act_type, classe_aeronave := classe,
      chegada_utc := arrival_time, chegada_slot := chegada_slot,
      partida_utc := departure_time, partida_slot := partida_slot,
      solo_min := solo_minutes, pnt_tst := pnt_tst, dom_int := dom_int,
      link_status := link_status, numero_voo_in := arrival.numero_voo,
      numero_voo_out := numero_voo_out, origem := arrival.origem, destino := destino,
      arrival_event_id := arrival.event_id, arrival_flight_id := arrival.flight_id,
      departure_event_id := departure_event_id, departure_flight_id := departure_flight_id }
  let mkAtd (fase : Str) (numero : Option Str) (slot : Int) : AtendimentoRow :=
    { voo_id := voo_id, slot_ts := slot, fase := fase, temporada := season,
      aeroporto := airport, cia := arrival.cia, classe_aeronave := classe,
      dom_int := dom_int, pnt_tst := pnt_tst, numero_voo := numero }
  let atendimento :=
    (expand_slots chegada_slot 10 30 slot_minutes).map
      (mkAtd (str "ARR") (some arrival.numero_voo)) ++
    (match partida_slot with
     | some ps =>
         (expand_slots (some ps) 30 10 slot_minutes).map (mkAtd (str "DEP") numero_voo_out)
     | none => [])
  let solo := ground_slot_rows season airport voo_id arrival.cia classe dom_int pnt_tst
    settings arrival_time departure_time chegada_slot partida_slot
  { treated := treated, atendimento := atendimento, solo := solo, used_out := used2 }

/-- The arrival loop of `link_airport`: per-arrival outputs in arrival order,
threading the consumed-departures set. -/
def link_loop (airport season : Str) (settings : Settings)
    (airport_country_map : List (Str × Str)) (departures : List Event)
    (used : List Str) : List Event → List ArrivalOut
  | [] => []
  | a :: rest =>
      let out := process_arrival airport season settings airport_country_map departures used a
      out :: link_loop airport season settings airport_country_map departures out.used_out rest

/-- The result record of `link_airport` (`AirportLinkResult`); `raw_subset`
is the arrivals-then-departures event concatenation tagged with the airport
(the tag is carried by each event already being specific to the airport). -/
structure AirportLinkResult where
  aeroporto : Str
  voos_tratados : List TreatedRow
  slots_atendimento : List AtendimentoRow
  slots_solo : List SoloRow
  raw_subset : List Event
deriving DecidableEq

/-- `link_airport` from `linker.py`. -/
def link_airport (frame : List Leg) (airport season : Str) (settings : Settings)
    (airport_country_map : List (Str × Str)) : AirportLinkResult :=
  let airportU := upperStr airport
  let arrivals := prepare_arrivals frame airportU
  let departures := prepare_departures frame airportU
  let outs := link_loop airportU season settings airport_country_map departures [] arrivals
  { aeroporto := airportU,
    voos_tratados := outs.map (fun o => o.treated),
    slots_atendimento := (outs.map (fun o => o.atendimento)).flatten,
    slots_solo := (outs.map (fun o => o.solo)).flatten,
    raw_subset := arrivals ++ departures }

/-- The run semantics of `link_airport` including its reachable error paths,
which the total function above elides.  Two statements of the source raise
on frames a tabular payload can produce:

* `_prepare_events` reads the `dt_chegada_utc` and `dt_partida_utc` columns
  of the frame (linker.py lines 72 and 80) and raises `KeyError` when a
  column is absent altogether.  Column presence is frame-level information
  that the per-row record model cannot carry, so it enters here as the two
  flags (a present column with missing cells is the rows-with-`none` case
  and does not raise).
* the arrival loop evaluates `arrival.get("natureza") or ""` (linker.py
  line 209); when the cell holds the synthesized missing value `pd.NA` (a
  tabular payload with no natureza-aliased column, modelled as `none`),
  taking its truth value raises `TypeError` before the treated row is
  appended.  The loop reads the natureza of every arrival in order, so a
  run completes exactly when every arrival carries a present value, and a
  raising run returns no rows at all.

When neither raise fires, the run returns the total-model result. -/
def link_airport_run (has_dt_chegada_col has_dt_partida_col : Bool) (frame : List Leg)
    (airport season : Str) (settings : Settings)
    (airport_country_map : List (Str × Str)) : Except Str AirportLinkResult :=
  if !has_dt_chegada_col then Except.error (str "KeyError: dt_chegada_utc")
  else if !has_dt_partida_col then Except.error (str "KeyError: dt_partida_utc")
  else if !(prepare_arrivals frame (upperStr airport)).all (fun a => a.natureza.isSome) then
    Except.error (str "TypeError: boolean value of NA is ambiguous")
  else Except.ok (link_airport frame airport season settings airport_country_map)

/-! ## Schedule parser (`siros_parser.py`) -/

/-- Lowercases one ASCII character (Python `str.lower`, used for the header
alias matching). -/
def lowerChar (c : Char) : Char :=
  if 'A' ≤ c ∧ c ≤ 'Z' then Char.ofNat (c.toNat + 32) else c

def lowerStr (s : Str) : Str := s.map lowerChar

def charDigit (c : Char) : Nat := c.toNat - 48

/-- Decimal rendering of a natural number (Python `str(idx)`). -/
def natToStr (n : Nat) : Str := Nat.toDigits 10 n

/-- Python `"\n".join` / newline splitting.  The feed uses bare newlines, so
`str.splitlines` is modelled as splitting on them. -/
def splitLines (s : Str) : List Str := splitOnChar '\n' s

def joinNewlines (l : List Str) : Str := (l.intersperse (str "\n")).flatten

/-- `_looks_like_ssim`: first 40 characters of the left-stripped payload,
uppercased, start with the SSIM banner. -/
def looks_like_ssim (text : Str) : Bool :=
  startsWithStr (str "1AIRLINE STANDARD SCHEDULE DATA SET")
    (upperStr (sliceStr (lstripStr text) 0 40))

/-- `_parse_hhmm`: a four-digit `HHMM` field, rejected when hour 24+ or
minute 60+; the result is minutes after local midnight. -/
def parse_hhmm (value : Str) : Option Nat :=
  let v := stripStr value
  if v.length = 4 ∧ v.all isDigitChar then
    match v with
    | [h1, h2, m1, m2] =>
        let hours := charDigit h1 * 10 + charDigit h2
        let minutes := charDigit m1 * 10 + charDigit m2
        if hours ≥ 24 ∨ minutes ≥ 60 then none else some (hours * 60 + minutes)
    | _ => none
  else none

/-- `_parse_offset`: signed `HHMM` UTC offset in minutes (parsed and stored
on the record, unused by the expansion step). -/
def parse_offset (value : Str) : Option Int :=
  let v := stripStr value
  if v = [] then none
  else
    let sign : Int := if startsWithStr (str "-") v then -1 else 1
    let w := v.dropWhile (fun c => c = '+' ∨ c = '-')
    if w.length = 4 ∧ w.all isDigitChar then
      match w with
      | [h1, h2, m1, m2] =>
          some (sign * ((charDigit h1 * 10 + charDigit h2) * 60 + (charDigit m1 * 10 + charDigit m2)))
      | _ => none
    else none

/-- `_ssim_days`: the digits appearing in the operating-days field. -/
def ssim_days (days_field : Str) : List Nat :=
  (days_field.filter isDigitChar).map charDigit

def isLeapYear (y : Nat) : Bool := y % 4 = 0 ∧ (y % 100 ≠ 0 ∨ y % 400 = 0)

def monthLengths (leap : Bool) : List Nat :=
  [31, if leap then 29 else 28, 31, 30, 31, 30, 31, 31, 30, 31, 30, 31]

def daysInMonth (y m : Nat) : Nat := ((monthLengths (isLeapYear y)).drop (m - 1)).headD 31

def daysBeforeMonth (y m : Nat) : Nat := (((monthLengths (isLeapYear y)).take (m - 1)).foldl (· + ·) 0)

/-- Number of leap years in `[1, y)`. -/
def leapsBefore (y : Nat) : Nat := (y - 1) / 4 - (y - 1) / 100 + (y - 1) / 400

/-- Days from 1970-01-01 to the civil date `y-m-d` (the `datetime.date`
value, as an ordinal day count). -/
def dateOrdinal (y m d : Nat) : Int :=
  365 * ((y : Int) - 1970) + ((leapsBefore y : Int) - (leapsBefore 1970 : Int)) +
    (daysBeforeMonth y m : Int) + ((d : Int) - 1)

def MONTH_NAMES : List Str :=
  [str "JAN", str "FEB", str "MAR", str "APR", str "MAY", str "JUN",
   str "JUL", str "AUG", str "SEP", str "OCT", str "NOV", str "DEC"]

def monthOfStr (s : Str) : Option Nat :=
  (MONTH_NAMES.indexOf? s).map (fun i => i + 1)

/-- `datetime.strptime(raw, "%d%b%y").date()` on the 7-character uppercased
SSIM period field: two digit day, three letter month, two digit year with
the POSIX 69/68 century pivot; invalid calendar days raise, modelled as
`none`. -/
def parseSsimDate (s : Str) : Option Int :=
  match s with
  | [d1, d2, m1, m2, m3, y1, y2] =>
      if isDigitChar d1 ∧ isDigitChar d2 ∧ isDigitChar y1 ∧ isDigitChar y2 then
        match monthOfStr [m1, m2, m3] with
        | some m =>
            let day := charDigit d1 * 10 + charDigit d2
            let yy := charDigit y1 * 10 + charDigit y2
            let year := if yy ≤ 68 then 2000 + yy else 1900 + yy
            if 1 ≤ day ∧ day ≤ daysInMonth year m then some (dateOrdinal year m day) else none
        | none => none
      else none
  | _ => none

/-- `date.weekday() + 1` with Monday = 1, for an ordinal day count
(1970-01-01 was a Thursday). -/
def weekdayPlus1 (ord : Int) : Nat := ((ord + 3).emod 7).toNat + 1

/-- The record `_parse_ssim_line` builds from one type-3 SSIM line. -/
structure SsimRecord where
  cia : Str
  numero_voo : Str
  start_date : Int
  end_date : Int
  days : List Nat
  departure_airport : Str
  arrival_airport : Str
  departure_utc_time : Nat
  arrival_utc_time : Nat
  departure_offset : Option Int
  arrival_offset : Option Int
  equipment : Option Str
  suffix : Option Str
  leg_sequence : Option Str
  service_type : Option Str
deriving DecidableEq

/-- Python `x or None` on a possibly-empty string. -/
def noneIfEmpty (s : Str) : Option Str := if s = [] then none else some s

/-- `_parse_ssim_line` from `siros_parser.py`: fixed byte offsets, required
fields, time and period-date validation. -/
def parse_ssim_line (line : Str) : Option SsimRecord :=
  if line.length < 75 then none
  else
    let airline := upperStr (stripStr (sliceStr line 2 4))
    let flight_number := upperStr (stripStr (sliceStr line 5 9))
    let suffix := upperStr (stripStr (sliceStr line 9 11))
    let leg_sequence := upperStr (stripStr (sliceStr line 11 13))
    let service_type := upperStr (stripStr (sliceStr line 13 14))
    let start_date_raw := upperStr (stripStr (sliceStr line 14 21))
    let end_date_raw := upperStr (stripStr (sliceStr line 21 28))
    let days_raw := sliceStr line 28 35
    let departure_airport := upperStr (stripStr (sliceStr line 36 39))
    let departure_utc_time := parse_hhmm (sliceStr line 43 47)
    let arrival_airport := upperStr (stripStr (sliceStr line 54 57))
    let arrival_utc_time := parse_hhmm (sliceStr line 61 65)
    let equipment := upperStr (stripStr (sliceStr line 72 75))
    if airline = [] ∨ flight_number = [] ∨ departure_airport = [] ∨ arrival_airport = [] then none
    else
      match departure_utc_time, arrival_utc_time with
      | some dep_t, some arr_t =>
          match parseSsimDate start_date_raw, parseSsimDate end_date_raw with
          | some sd, some ed =>
              some { cia := airline, numero_voo := flight_number,
                     start_date := sd, end_date := ed, days := ssim_days days_raw,
                     departure_airport := departure_airport, arrival_airport := arrival_airport,
                     departure_utc_time := dep_t, arrival_utc_time := arr_t,
                     departure_offset := parse_offset (sliceStr line 47 52),
                     arrival_offset := parse_offset (sliceStr line 65 70),
                     equipment := noneIfEmpty equipment, suffix := noneIfEmpty suffix,
                     leg_sequence := noneIfEmpty leg_sequence,
                     service_type := noneIfEmpty service_type }
          | _, _ => none
      | _, _ => none

/-- One expanded dated row before the dataset-level column normalisation. -/
structure SsimRow where
  cia : Str
  numero_voo : Str
  act_type : Option Str
  origem : Str
  destino : Str
  dt_partida_utc : Int
  dt_chegada_utc : Int
  service_type : Option Str
deriving DecidableEq

/-- `_expand_ssim_record`: one row per calendar day of the operating period
whose weekday matches the days mask (every day when the mask is empty);
departure timestamp is day plus departure time, arrival rolls to the next
day when its time-of-day is earlier. -/
def expand_ssim_record (r : SsimRecord) : List SsimRow :=
  (List.range (r.end_date - r.start_date + 1).toNat).filterMap (fun i =>
    let ord := r.start_date + (i : Int)
    if r.days = [] ∨ r.days.contains (weekdayPlus1 ord) then
      let dep_dt := ord * 1440 + (r.departure_utc_time : Int)
      let arr_dt0 := ord * 1440 + (r.arrival_utc_time : Int)
      let arr_dt := if arr_dt0 < dep_dt then arr_dt0 + 1440 else arr_dt0
      some { cia := r.cia, numero_voo := r.numero_voo, act_type := r.equipment,
             origem := r.departure_airport, destino := r.arrival_airport,
             dt_partida_utc := dep_dt, dt_chegada_utc := arr_dt,
             service_type := r.service_type }
    else none)

/-- The parser-module cargo service types (`{"F", "M"}`; distinct from the
classifier set of the same source name). -/
def SSIM_CARGO_SERVICE_TYPES : List Str := [str "F", str "M"]

/-- Python `astype(str)` on an object column holding `None`. -/
def pyStrOfOption (o : Option Str) : Str := match o with | some s => s | none => str "None"

/-- The dataset-level column normalisation of `_parse_ssim_dataset`: the
season, operating-airport, nature and seat columns are synthesised, the
service type is stringified/stripped/uppercased with missing values becoming
the empty string, the nature is `CARGO` for cargo service types else `PAX`,
and the key string columns go through `astype(str).str.strip().str.upper()`. -/
def ssim_finalize_row (row : SsimRow) : RawLeg :=
  let svc := upperStr (stripStr (row.service_type.getD []))
  let natureza := if SSIM_CARGO_SERVICE_TYPES.contains svc then str "CARGO" else str "PAX"
  { cia := upperStr (stripStr row.cia),
    numero_voo := upperStr (stripStr row.numero_voo),
    act_type := upperStr (stripStr (pyStrOfOption row.act_type)),
    origem := upperStr (stripStr row.origem),
    destino := upperStr (stripStr row.destino),
    dt_partida_utc := some row.dt_partida_utc,
    dt_chegada_utc := some row.dt_chegada_utc,
    natureza := some natureza,
    service_type := some svc,
    assentos_previstos := none,
    temporada := none,
    aeroporto_operacao := none }

/-- `_parse_ssim_dataset`: expand every line starting with the type-3 marker
and apply the dataset-level normalisation (which only runs on a non-empty
frame; on an empty one the empty frame is returned unchanged). -/
def parse_ssim_dataset (text : Str) : List RawLeg :=
  ((((splitLines text).filter (startsWithStr (str "3 "))).filterMap parse_ssim_line).map
    expand_ssim_record).flatten.map ssim_finalize_row

/-- The alias table of `siros_parser.COLUMN_ALIASES`, in source order. -/
def COLUMN_ALIASES : List (Str × List Str) :=
  [(str "temporada", [str "temporada", str "ds_temporada", str "season_code", str "temporada_ref"]),
   (str "cia", [str "cia", str "cia_aerea", str "airline", str "airline_code", str "cia_operadora"]),
   (str "numero_voo", [str "numero_voo", str "nr_voo", str "flight_number", str "numero"]),
   (str "act_type", [str "act_type", str "aircraft_type", str "icao_tipo_equipamento",
     str "equipamento", str "equipment"]),
   (str "origem", [str "origem", str "origin", str "aerodromo_origem", str "aeroporto_origem"]),
   (str "destino", [str "destino", str "destination", str "aerodromo_destino", str "aeroporto_destino"]),
   (str "aeroporto_operacao", [str "aeroporto", str "aeroporto_operacao", str "airport", str "icao_aeroporto"]),
   (str "dt_partida_utc", [str "dt_partida_utc", str "partida_utc", str "horario_partida_utc", str "departure_utc"]),
   (str "dt_chegada_utc", [str "dt_chegada_utc", str "chegada_utc", str "horario_chegada_utc", str "arrival_utc"]),
   (str "natureza", [str "natureza", str "tipo_voo", str "dom_int", str "flight_nature"]),
   (str "assentos_previstos", [str "assentos_previstos", str "assentos", str "capacity", str "payload_assentos"])]

/-- `_detect_delimiter`, modelled by its deterministic fallback chain (first
of `;`, `,`, `|`, tab occurring in the five-line sample, else comma); the
`csv.Sniffer` agrees with this choice on the simple single-delimiter samples
this development evaluates the parser on. -/
def detect_delimiter (sample : Str) : Char :=
  if sample.contains ';' then ';'
  else if sample.contains ',' then ','
  else if sample.contains '|' then '|'
  else if sample.contains '\t' then '\t'
  else ','

/-- Minimal model of `pandas.read_csv` on plain delimited text without
quoting: the first line carries the column names, every further non-blank
line one row.  This is the only shape of tabular payload this development
feeds through the CSV branch, and on it the tokenizer cannot fail (so the
`read_fwf` fallback is never reached). -/
def pd_read_csv (delim : Char) (text : Str) : (List Str × List (List Str)) :=
  match (splitLines text).filter (fun l => l ≠ []) with
  | [] => ([], [])
  | header :: rest => (splitOnChar delim header, rest.map (splitOnChar delim))

/-- First alias of the list that matches an existing column
(case-insensitively); on a hit, the matched column name.  Python builds
`lower_map` as a dict comprehension, so of two columns with equal lowercase
the later one wins. -/
def findAliasColumn (header : List Str) (aliases : List Str) : Option Str :=
  aliases.firstM (fun a => (header.reverse).find? (fun col => lowerStr col == lowerStr a))

/-- The rename map of `_normalise_headers`: original column name to
canonical name, first matching alias per canonical. -/
def header_rename_pairs (header : List Str) : List (Str × Str) :=
  COLUMN_ALIASES.filterMap (fun ca =>
    (findAliasColumn header ca.2).map (fun col => (col, ca.1)))

/-- Column names after `frame.rename(columns=rename_map)`. -/
def renamed_header (header : List Str) : List Str :=
  header.map (fun col => ((header_rename_pairs header).lookup col).getD col)

def REQUIRED_COLUMNS : List Str :=
  [str "cia", str "numero_voo", str "act_type", str "origem", str "destino"]

/-- Value of column `name` in a row, `none` when the column is absent. -/
def getCol (header : List Str) (row : List Str) (name : Str) : Option Str :=
  (header.indexOf? name).bind (fun i => row.get? i)

/-- Minimal model of `pd.to_datetime(..., errors="coerce", utc=True)`,
restricted to `YYYY-MM-DD HH:MM` / `YYYY-MM-DDTHH:MM` literals (minute
resolution, as the feed carries); anything else coerces to `NaT`. -/
def pd_to_datetime (s : Str) : Option Int :=
  match stripStr s with
  | [y1, y2, y3, y4, '-', mo1, mo2, '-', d1, d2, sep, h1, h2, ':', mi1, mi2] =>
      if (sep = ' ' ∨ sep = 'T') ∧
          [y1, y2, y3, y4, mo1, mo2, d1, d2, h1, h2, mi1, mi2].all isDigitChar then
        let y := charDigit y1 * 1000 + charDigit y2 * 100 + charDigit y3 * 10 + charDigit y4
        let mo := charDigit mo1 * 10 + charDigit mo2
        let d := charDigit d1 * 10 + charDigit d2
        let h := charDigit h1 * 10 + charDigit h2
        let mi := charDigit mi1 * 10 + charDigit mi2
        if 1 ≤ mo ∧ mo ≤ 12 ∧ 1 ≤ d ∧ d ≤ daysInMonth y mo ∧ h < 24 ∧ mi < 60 then
          some (dateOrdinal y mo d * 1440 + (h * 60 + mi : Nat))
        else none
      else none
  | _ => none

/-- Model of `pd.to_numeric(..., errors="coerce").astype("Int64")` on one
cell. -/
def pd_to_numeric_int (s : Str) : Option Int := pyInt s

/-- Python `astype(str)` on a cell of an object column that may hold
`pd.NA` (the synthesised optional columns). -/
def pyStrOfCell (o : Option Str) : Str := match o with | some s => s | none => str "<NA>"

/-- Builds one `RawLeg` from one tabular row after `_normalise_headers` and
the type conversions of `parse_schedule_text`: timestamps coerce through
`pd_to_datetime`, the seat count through `pd_to_numeric_int`, the key string
columns and the operating-airport and season columns go through
`astype(str).str.strip().str.upper()` (an absent synthesised column shows up
as the stringified missing value), and the nature column is kept as parsed
with absent values missing. -/
def tabular_row_to_leg (header : List Str) (row : List Str) : RawLeg :=
  let strCol (name : Str) : Str :=
    upperStr (stripStr (pyStrOfCell (getCol header row name)))
  { cia := strCol (str "cia"),
    numero_voo := strCol (str "numero_voo"),
    act_type := strCol (str "act_type"),
    origem := strCol (str "origem"),
    destino := strCol (str "destino"),
    dt_partida_utc := (getCol header row (str "dt_partida_utc")).bind pd_to_datetime,
    dt_chegada_utc := (getCol header row (str "dt_chegada_utc")).bind pd_to_datetime,
    natureza := getCol header row (str "natureza"),
    service_type := none,
    assentos_previstos := (getCol header row (str "assentos_previstos")).bind pd_to_numeric_int,
    temporada := (getCol header row (str "temporada")).map (fun v => upperStr (stripStr v)),
    aeroporto_operacao := some (strCol (str "aeroporto_operacao")) }

/-- `parse_schedule_text` from `siros_parser.py`: empty payloads fail, SSIM
payloads go through the fixed-field expansion and fail when it yields no
rows, any other payload goes through delimiter detection, `read_csv`, header
aliasing (failing when a required column cannot be resolved) and the column
type conversions. -/
def parse_schedule_text (text : Str) : Except Str (List RawLeg) :=
  let cleaned := stripStr text
  if cleaned = [] then Except.error (str "Arquivo SIROS vazio.")
  else if looks_like_ssim cleaned then
    let frame := parse_ssim_dataset cleaned
    if frame = [] then Except.error (str "Arquivo SIROS (SSIM) sem voos processaveis.")
    else Except.ok frame
  else
    let sample := joinNewlines ((splitLines cleaned).take 5)
    let delimiter := detect_delimiter sample
    let parsed := pd_read_csv delimiter cleaned
    let header := renamed_header parsed.1
    if REQUIRED_COLUMNS.all (fun c => header.contains c) then
      Except.ok (parsed.2.map (tabular_row_to_leg header))
    else Except.error (str "Arquivo SIROS nao possui colunas obrigatorias.")

/-! ## Pipeline orchestration (`pipeline.py`) -/

/-- Python chained `or` over optional strings with string truthiness (the
season resolution `temporada or settings.default_season or ""`). -/
def pyOrStr (a b : Option Str) : Str :=
  match a with
  | some s => if s ≠ [] then s else (match b with | some t => t | none => [])
  | none => (match b with | some t => t | none => [])

/-- The `_in_window` mask of `run_pipeline` for one timestamp column value:
inside the half-open window and not missing. -/
def in_window (ws we : Option Int) (t : Option Int) : Bool :=
  match t with
  | none => false
  | some x =>
      (match ws with | some w => decide (x ≥ w) | none => true) &&
      (match we with | some w => decide (x < w) | none => true)

/-- The retention mask of the time-window filter in `run_pipeline`: either
timestamp inside the window, or the boundary-overlap clause (arrival before
the window start, departure at or after it, and before the window end when
one is given). -/
def window_mask (ws we : Option Int) (l : RawLeg) : Bool :=
  let base := in_window ws we l.dt_chegada_utc || in_window ws we l.dt_partida_utc
  let overlap :=
    match ws with
    | none => false
    | some w =>
        match l.dt_chegada_utc, l.dt_partida_utc with
        | some arr, some dep =>
            decide (arr < w) && decide (dep ≥ w) &&
              (match we with | some w2 => decide (dep < w2) | none => true)
        | _, _ => false
  base || overlap

/-- The time-window restriction step of `run_pipeline` (lines 91-122): active
only when a window endpoint was supplied. -/
def apply_time_window (ws we : Option Int) (frame : List RawLeg) : List RawLeg :=
  if ws.isSome || we.isSome then frame.filter (window_mask ws we) else frame

/-- The composite key `_assign_raw_ids` hashes for the row at `idx`. -/
def raw_id_key (season : Str) (l : RawLeg) (idx : Nat) : Str :=
  season ++ str ":" ++ l.cia ++ str ":" ++ l.numero_voo ++ str ":" ++ l.origem ++ str ":" ++
    l.destino ++ str ":" ++ natToStr idx

/-- `_assign_raw_ids` from `pipeline.py`: the deterministic `flight_id`
column, hashed from the stable composite key of each row. -/
def assign_raw_ids (frame : List RawLeg) (season : Str) : List Leg :=
  frame.enum.map (fun p =>
    { cia := p.2.cia, numero_voo := p.2.numero_voo, act_type := p.2.act_type,
      origem := p.2.origem, destino := p.2.destino,
      dt_partida_utc := p.2.dt_partida_utc, dt_chegada_utc := p.2.dt_chegada_utc,
      natureza := p.2.natureza, service_type := p.2.service_type,
      assentos_previstos := p.2.assentos_previstos, temporada := p.2.temporada,
      aeroporto_operacao := p.2.aeroporto_operacao,
      flight_id := uuid5 (raw_id_key season p.2 p.1) })

/-- Lexicographic strict order on character lists (Python string order on
the ASCII alphabet in play). -/
def strLtB : Str → Str → Bool
  | [], [] => false
  | [], _ :: _ => true
  | _ :: _, [] => false
  | a :: as2, b :: bs2 => if a < b then true else if a = b then strLtB as2 bs2 else false

def insertStrSorted (e : Str) : List Str → List Str
  | [] => [e]
  | x :: xs => if strLtB e x || e == x then e :: x :: xs else x :: insertStrSorted e xs

/-- Python `sorted` over strings. -/
def sortStrs (l : List Str) : List Str := l.foldr insertStrSorted []

/-- Python `sorted(set(...))`: duplicates removed (keeping first
occurrences, which sorting makes irrelevant) then sorted. -/
def sortedDedupStrs (l : List Str) : List Str := sortStrs l.eraseDups

/-- The result record of `run_pipeline` (`PipelineResult`). -/
structure PipelineResult where
  temporada : Str
  voos_raw : List Event
  voos_tratados : List TreatedRow
  slots_atendimento : List AtendimentoRow
  slots_solo : List SoloRow
  aeroportos_processados : List Str
deriving DecidableEq

/-- `run_pipeline` from `pipeline.py`, from the point where the schedule
text has been parsed into the raw leg table (the fetch/parse stage feeding
`raw_frame` is `parse_schedule_text`, composed in `run_pipeline` below):
season resolution, season back-fill, optional time window, deterministic leg
identifiers, airport-set determination, one `link_airport` call per airport
and concatenation of the four output tables. -/
def run_pipeline_from_frame (raw_frame0 : List RawLeg) (temporada : Option Str)
    (aeroportos : Option (List Str)) (airport_country_map : List (Str × Str))
    (settings : Settings) (window_start window_end : Option Int) :
    Except Str PipelineResult :=
  let season := upperStr (stripStr (pyOrStr temporada settings.default_season))
  if season = [] then Except.error (str "Informe uma temporada (ex.: S25).")
  else
    let raw_frame1 :=
      if raw_frame0.all (fun l => l.temporada = none) then
        raw_frame0.map (fun l => { l with temporada := some season })
      else raw_frame0
    let raw_frame2 := apply_time_window window_start window_end raw_frame1
    let frame := assign_raw_ids raw_frame2 season
    let explicit := match aeroportos with
      | some l => (l.filter (fun ap => ap ≠ [] && stripStr ap ≠ [])).map
          (fun ap => upperStr (stripStr ap))
      | none => []
    let aeroportos_list :=
      if explicit = [] then
        sortedDedupStrs ((frame.map (fun l => upperStr (stripStr l.origem))) ++
          (frame.map (fun l => upperStr (stripStr l.destino))))
      else explicit
    if aeroportos_list = [] then
      Except.error (str "Nenhum aeroporto disponivel para processamento.")
    else
      let results := aeroportos_list.map (fun ap =>
        link_airport frame ap season settings airport_country_map)
      Except.ok
        { temporada := season,
          voos_raw := (results.map (fun r => r.raw_subset)).flatten,
          voos_tratados := (results.map (fun r => r.voos_tratados)).flatten,
          slots_atendimento := (results.map (fun r => r.slots_atendimento)).flatten,
          slots_solo := (results.map (fun r => r.slots_solo)).flatten,
          aeroportos_processados := aeroportos_list }

/-- `run_pipeline` on a supplied schedule text (the
`schedule_text_override` path; the remote-fetch collaborator is out of
scope). -/
def run_pipeline (schedule_text : Str) (temporada : Option Str)
    (aeroportos : Option (List Str)) (airport_country_map : List (Str × Str))
    (settings : Settings) (window_start window_end : Option Int) :
    Except Str PipelineResult :=
  match parse_schedule_text schedule_text with
  | Except.error e => Except.error e
  | Except.ok raw_frame =>
      run_pipeline_from_frame raw_frame temporada aeroportos airport_country_map settings
        window_start window_end

/-! ## Lemmas about the slot arithmetic -/

/-- The value `round_to_slot` produces on a present timestamp. -/
def roundv (t g : Int) : Int := (round_to_slot (some t) g).getD 0

theorem round_to_slot_some (t g : Int) : round_to_slot (some t) g = some (roundv t g) := rfl

theorem intTruncDiv_nonneg (t g : Int) (ht : 0 ≤ t) (hg : 0 ≤ g) : intTruncDiv t g = t / g := by
  unfold intTruncDiv
  rw [if_pos ht, Int.ofNat_tdiv, Int.toNat_of_nonneg ht, Int.toNat_of_nonneg hg,
    Int.tdiv_eq_ediv ht hg]

theorem intTruncDiv_neg (t g : Int) (ht : t < 0) (hg : 0 ≤ g) :
    intTruncDiv t g = -((-t) / g) := by
  unfold intTruncDiv
  rw [if_neg (by omega), Int.ofNat_tdiv, Int.toNat_of_nonneg (by omega : (0:Int) ≤ -t),
    Int.toNat_of_nonneg hg, Int.tdiv_eq_ediv (by omega : (0:Int) ≤ -t) hg]

/-- Closed form of `roundv` on nonnegative timestamps and engine-sized
granularities: round down below the half slot, up at and above it. -/
theorem roundv_nonneg_eq (t g : Int) (ht : 0 ≤ t) (hg : 0 < g) (hb : g ≤ 100000) :
    roundv t g = if g ≤ 2 * (t % g) then t - t % g + g else t - t % g := by
  simp only [roundv, round_to_slot]
  rw [intTruncDiv_nonneg t g ht (le_of_lt hg)]
  have hdm := Int.ediv_add_emod t g
  rw [Int.mul_comm] at hdm
  have h0 : 0 ≤ t % g := Int.emod_nonneg t (by omega)
  have h1 : t % g < g := Int.emod_lt_of_pos t hg
  have hr : t - t / g * g = t % g := by omega
  rw [hr]
  by_cases hc : g ≤ 2 * (t % g)
  · rw [if_pos hc]
    have hbump : (decide (2 * (t % g) > g) || decide ((2 * (t % g) - g).natAbs * 1000000000 < (2 * g).toNat)) = true := by
      simp only [Bool.or_eq_true, decide_eq_true_eq]
      rcases lt_or_eq_of_le hc with h | h
      · left
        exact h
      · right
        omega
    rw [hbump, if_pos rfl]
    simp only [Option.getD_some]
    rw [add_mul, one_mul]
    omega
  · rw [if_neg hc]
    have hbump : (decide (2 * (t % g) > g) || decide ((2 * (t % g) - g).natAbs * 1000000000 < (2 * g).toNat)) = false := by
      simp only [Bool.or_eq_false_iff, decide_eq_false_iff_not]
      exact ⟨by omega, by omega⟩
    rw [hbump, if_neg (by decide : ¬(false = true))]
    simp only [Option.getD_some]
    omega

/-- Closed form of `roundv` on negative (pre-epoch) timestamps: the source
truncation toward zero makes it round up to the next slot boundary. -/
theorem roundv_neg_eq (t g : Int) (ht : t < 0) (hg : 0 < g) (hb : g ≤ 100000) :
    roundv t g = t + (-t) % g := by
  simp only [roundv, round_to_slot]
  rw [intTruncDiv_neg t g ht (le_of_lt hg)]
  have hdm := Int.ediv_add_emod (-t) g
  rw [Int.mul_comm] at hdm
  have h0 : 0 ≤ (-t) % g := Int.emod_nonneg (-t) (by omega)
  have h1 : (-t) % g < g := Int.emod_lt_of_pos (-t) hg
  have hr : t - -((-t) / g) * g = 0 - (-t) % g := by
    rw [neg_mul]
    omega
  rw [hr]
  have hbump : (decide (2 * (0 - (-t) % g) > g) || decide ((2 * (0 - (-t) % g) - g).natAbs * 1000000000 < (2 * g).toNat)) = false := by
    simp only [Bool.or_eq_false_iff, decide_eq_false_iff_not]
    exact ⟨by omega, by omega⟩
  rw [hbump, if_neg (by decide : ¬(false = true))]
  simp only [Option.getD_some]
  rw [neg_mul]
  omega

/-- The rounded slot is strictly within one granularity of the timestamp. -/
theorem roundv_close (t g : Int) (hg : 0 < g) (hb : g ≤ 100000) :
    t - g < roundv t g ∧ roundv t g < t + g := by
  by_cases ht : 0 ≤ t
  · rw [roundv_nonneg_eq t g ht hg hb]
    have h0 : 0 ≤ t % g := Int.emod_nonneg t (by omega)
    have h1 : t % g < g := Int.emod_lt_of_pos t hg
    split <;> omega
  · rw [roundv_neg_eq t g (by omega) hg hb]
    have h0 : 0 ≤ (-t) % g := Int.emod_nonneg (-t) (by omega)
    have h1 : (-t) % g < g := Int.emod_lt_of_pos (-t) hg
    omega

/-- The rounded slot is a multiple of the granularity. -/
theorem roundv_dvd (t g : Int) (hg : 0 < g) (hb : g ≤ 100000) : g ∣ roundv t g := by
  by_cases ht : 0 ≤ t
  · rw [roundv_nonneg_eq t g ht hg hb]
    have hd : g ∣ t - t % g := Int.dvd_sub_of_emod_eq rfl
    split
    · exact dvd_add hd dvd_rfl
    · exact hd
  · rw [roundv_neg_eq t g (by omega) hg hb]
    have hd : g ∣ -t - (-t) % g := Int.dvd_sub_of_emod_eq rfl
    have heq : t + (-t) % g = -(-t - (-t) % g) := by ring
    rw [heq]
    exact dvd_neg.mpr hd

/-- `roundv` expressed as a multiple of the granularity, nonnegative case:
the nearest-ties-up index `(2 t + g) / (2 g)`. -/
theorem roundv_nonneg_index (t g : Int) (ht : 0 ≤ t) (hg : 0 < g) (hb : g ≤ 100000) :
    roundv t g = g * ((2 * t + g) / (2 * g)) := by
  rw [roundv_nonneg_eq t g ht hg hb]
  have hdm := Int.ediv_add_emod t g
  rw [Int.mul_comm] at hdm
  have h0 : 0 ≤ t % g := Int.emod_nonneg t (by omega)
  have h1 : t % g < g := Int.emod_lt_of_pos t hg
  have hsplit : 2 * t + g = (2 * (t % g) + g) + (t / g) * (2 * g) := by
    linear_combination -2 * hdm
  rw [hsplit, Int.add_mul_ediv_right _ _ (by omega : (2:Int) * g ≠ 0)]
  by_cases hc : g ≤ 2 * (t % g)
  · rw [if_pos hc]
    have h2 : (2 * (t % g) + g) = (2 * (t % g) - g) + 1 * (2 * g) := by ring
    rw [h2, Int.add_mul_ediv_right _ _ (by omega : (2:Int) * g ≠ 0),
      Int.ediv_eq_zero_of_lt (by omega) (by omega)]
    have hfin : g * (0 + 1 + t / g) = t / g * g + g := by ring
    rw [hfin]
    omega
  · rw [if_neg hc]
    rw [Int.ediv_eq_zero_of_lt (by omega) (by omega)]
    have hfin : g * (0 + t / g) = t / g * g := by ring
    rw [hfin]
    omega

/-- `roundv` expressed as a multiple of the granularity, negative case: the
ceiling index `-(-t / g)`. -/
theorem roundv_neg_index (t g : Int) (ht : t < 0) (hg : 0 < g) (hb : g ≤ 100000) :
    roundv t g = -(g * ((-t) / g)) := by
  rw [roundv_neg_eq t g ht hg hb]
  have hdm := Int.ediv_add_emod (-t) g
  omega

/-- `round_to_slot` is monotone on timestamps for engine-sized granularities. -/
theorem roundv_mono (x y g : Int) (hxy : x ≤ y) (hg : 0 < g) (hb : g ≤ 100000) :
    roundv x g ≤ roundv y g := by
  by_cases hx : 0 ≤ x
  · have hy : 0 ≤ y := by omega
    rw [roundv_nonneg_index x g hx hg hb, roundv_nonneg_index y g hy hg hb]
    have := Int.ediv_le_ediv (by omega : 0 < 2 * g) (by omega : 2 * x + g ≤ 2 * y + g)
    exact mul_le_mul_of_nonneg_left this (by omega)
  · by_cases hy : 0 ≤ y
    · rw [roundv_neg_index x g (by omega) hg hb, roundv_nonneg_index y g hy hg hb]
      have h1 : 0 ≤ (-x) / g := Int.ediv_nonneg (by omega) (by omega)
      have h2 : 0 ≤ (2 * y + g) / (2 * g) := Int.ediv_nonneg (by omega) (by omega)
      have h3 : 0 ≤ g * ((2 * y + g) / (2 * g)) := mul_nonneg (by omega) h2
      have h4 : 0 ≤ g * ((-x) / g) := mul_nonneg (by omega) h1
      omega
    · rw [roundv_neg_index x g (by omega) hg hb, roundv_neg_index y g (by omega) hg hb]
      have := Int.ediv_le_ediv hg (by omega : -y ≤ -x)
      have h2 := mul_le_mul_of_nonneg_left this (by omega : (0:Int) ≤ g)
      omega

/-- Rounding a slot multiple is the identity. -/
theorem roundv_mul_self (m g : Int) (hg : 0 < g) (hb : g ≤ 100000) :
    roundv (g * m) g = g * m := by
  by_cases hm : 0 ≤ m
  · rw [roundv_nonneg_eq (g * m) g (mul_nonneg (by omega) hm) hg hb]
    rw [Int.mul_emod_right]
    rw [if_neg (by omega)]
    ring
  · rw [roundv_neg_eq (g * m) g (mul_neg_of_pos_of_neg hg (by omega : m < 0)) hg hb]
    have hneg : -(g * m) = g * (-m) := by ring
    rw [hneg, Int.mul_emod_right]
    ring

/-- Rounding is idempotent. -/
theorem roundv_idem (x g : Int) (hg : 0 < g) (hb : g ≤ 100000) :
    roundv (roundv x g) g = roundv x g := by
  obtain ⟨m, hm⟩ := roundv_dvd x g hg hb
  rw [hm]
  exact roundv_mul_self m g hg hb

/-- On timestamps at or after the epoch, the rounded slot is the nearest
multiple of the granularity, with an exact half rounding to the later slot
(encoded by the asymmetric window `-g ≤ 2 (x - r) < g`). -/
theorem roundv_nearest (x g : Int) (hx : 0 ≤ x) (hg : 0 < g) (hb : g ≤ 100000) :
    -g ≤ 2 * (x - roundv x g) ∧ 2 * (x - roundv x g) < g := by
  rw [roundv_nonneg_eq x g hx hg hb]
  have h0 : 0 ≤ x % g := Int.emod_nonneg x (by omega)
  have h1 : x % g < g := Int.emod_lt_of_pos x hg
  split <;> omega

/-- Any multiple of the granularity is at least as far from the timestamp as
the rounded slot (the nearest-multiple property). -/
theorem roundv_nearest_all (x g : Int) (hx : 0 ≤ x) (hg : 0 < g) (hb : g ≤ 100000) :
    ∀ m : Int, g ∣ m → (x - roundv x g).natAbs ≤ (x - m).natAbs := by
  intro m hm
  have hr := roundv_dvd x g hg hb
  have hn := roundv_nearest x g hx hg hb
  rcases eq_or_ne m (roundv x g) with he | hne
  · rw [he]
  · have hdvd : g ∣ m - roundv x g := dvd_sub hm hr
    have habs : g ∣ |m - roundv x g| := (dvd_abs g (m - roundv x g)).mpr hdvd
    have hpos : 0 < |m - roundv x g| := abs_pos.mpr (sub_ne_zero.mpr hne)
    have hge : g ≤ |m - roundv x g| := Int.le_of_dvd hpos habs
    rw [Int.abs_eq_natAbs] at hge
    omega

/-! ## Lemmas about slot ranges -/

theorem slot_range_start_mem (s en g : Int) (h : s ≤ en) :
    s ∈ slot_range (some s) (some en) g := by
  simp only [slot_range, if_neg (by omega : ¬ en < s)]
  apply List.mem_map.mpr
  exact ⟨0, by simp, by simp⟩

theorem slot_range_ne_nil (s en g : Int) (h : s ≤ en) :
    slot_range (some s) (some en) g ≠ [] :=
  List.ne_nil_of_mem (slot_range_start_mem s en g h)

theorem slot_range_same (s g : Int) : slot_range (some s) (some s) g = [s] := by
  simp only [slot_range, if_neg (by omega : ¬ s < s), sub_self]
  have h0 : (0 : Int).toNat = 0 := rfl
  rw [h0, Nat.zero_div, List.range_succ, List.range_zero]
  simp

/-! ## C4: rounding semantics -/

/-- C4 counterexample: the claim says `roundToSlot` returns the nearest
multiple of the granularity for every timestamp, but on the pre-epoch
timestamp `-7` minutes with granularity 10 the source truncation toward zero
returns slot `0`, while the multiple `-10` is strictly nearer. -/
theorem C4_counterexample_pre_epoch_not_nearest :
    round_to_slot (some (-7)) 10 = some 0 ∧
    (10 : Int) ∣ -10 ∧ ((-7 : Int) - -10).natAbs < ((-7 : Int) - 0).natAbs := by
  decide

/-- C4 (amended): for granularities in {5, 10, 15}, an undefined timestamp
propagates as undefined and rounding is idempotent for every timestamp; for
every timestamp at or after the UTC epoch the result is the multiple of the
granularity nearest to the timestamp with exact half-slot boundaries rounded
to the later slot; a pre-epoch timestamp instead rounds up to the next slot
boundary. -/
theorem C4_round_to_slot_amended (x g : Int) (hg : g = 5 ∨ g = 10 ∨ g = 15) :
    round_to_slot none g = none ∧
    round_to_slot (round_to_slot (some x) g) g = round_to_slot (some x) g ∧
    (0 ≤ x →
      g ∣ roundv x g ∧
      (∀ m : Int, g ∣ m → (x - roundv x g).natAbs ≤ (x - m).natAbs) ∧
      -g ≤ 2 * (x - roundv x g) ∧ 2 * (x - roundv x g) < g) ∧
    (x < 0 → roundv x g = x + (-x) % g) := by
  have hg2 : 0 < g := by rcases hg with h | h | h <;> omega
  have hb : g ≤ 100000 := by rcases hg with h | h | h <;> omega
  refine ⟨rfl, ?_, ?_, ?_⟩
  · rw [round_to_slot_some, round_to_slot_some, roundv_idem x g hg2 hb]
  · intro hx
    exact ⟨roundv_dvd x g hg2 hb, roundv_nearest_all x g hx hg2 hb,
      roundv_nearest x g hx hg2 hb⟩
  · intro hx
    exact roundv_neg_eq x g hx hg2 hb

theorem C4_round_to_slot_amended_witness :
    (round_to_slot (round_to_slot (some 7) 10) 10 = round_to_slot (some 7) 10) ∧
    round_to_slot (some 7) 10 = some 10 :=
  ⟨(C4_round_to_slot_amended 7 10 (by decide)).2.1, by decide⟩

/-! ## Lemmas about event sorting and the candidate scan -/

/-- Ascending timestamp order (the `sort_values`/bucket-sort invariant). -/
def SortedEvents (l : List Event) : Prop :=
  l.Pairwise (fun a b => a.timestamp_evento ≤ b.timestamp_evento)

theorem insertByTs_mem (e : Event) (l : List Event) (x : Event) :
    x ∈ insertByTs e l ↔ x = e ∨ x ∈ l := by
  induction l with
  | nil => simp [insertByTs]
  | cons y ys ih =>
      simp only [insertByTs]
      split
      · simp
      · simp only [List.mem_cons, ih]
        tauto

theorem insertByTs_sorted (e : Event) (l : List Event) (h : SortedEvents l) :
    SortedEvents (insertByTs e l) := by
  induction l with
  | nil => simp [insertByTs, SortedEvents]
  | cons y ys ih =>
      rcases (List.pairwise_cons.mp h) with ⟨hy, hys⟩
      simp only [insertByTs]
      split
      · rename_i hle
        refine List.pairwise_cons.mpr ⟨?_, h⟩
        intro z hz
        rcases List.mem_cons.mp hz with rfl | hz
        · omega
        · have h2 := hy z hz
          omega
      · rename_i hgt
        refine List.pairwise_cons.mpr ⟨?_, ih hys⟩
        intro z hz
        rcases (insertByTs_mem e ys z).mp hz with hz | hz
        · subst hz
          omega
        · exact hy z hz

theorem sortByTs_sorted (l : List Event) : SortedEvents (sortByTs l) := by
  induction l with
  | nil => simp [sortByTs, SortedEvents]
  | cons y ys ih => exact insertByTs_sorted y (sortByTs ys) ih

theorem prepare_departures_sorted (frame : List Leg) (airport : Str) :
    SortedEvents (prepare_departures frame airport) := sortByTs_sorted _

theorem departure_candidates_sorted (departures : List Event) (cia act_type : Str)
    (h : SortedEvents departures) :
    SortedEvents (departure_candidates departures cia act_type) :=
  List.Pairwise.sublist (List.filter_sublist departures) h

/-- Eligibility of a departure candidate for one arrival: not yet consumed
and inside the turnaround window. -/
def eligible (used : List Str) (earliest latest : Int) (c : Event) : Prop :=
  used.contains c.event_id = false ∧ earliest ≤ c.timestamp_evento ∧
    c.timestamp_evento ≤ latest

/-- Any `some` result of the scan that did not come from the accumulator is
an eligible member of the candidate list carrying its own time and
flight-number distances. -/
theorem scan_result (arr_ts : Int) (arr_num : Str) (earliest latest : Int) (used : List Str)
    (cands : List Event) (acc : Option Best) (b : Best)
    (h : scan_candidates arr_ts arr_num earliest latest used cands acc = some b) :
    acc = some b ∨
      (b.cand ∈ cands ∧ eligible used earliest latest b.cand ∧
        b.diff = b.cand.timestamp_evento - arr_ts ∧
        b.ndiff = number_diff b.cand.numero_voo_evento arr_num) := by
  induction cands generalizing acc with
  | nil =>
      simp only [scan_candidates] at h
      exact Or.inl h
  | cons c rest ih =>
      simp only [scan_candidates] at h
      by_cases h1 : used.contains c.event_id
      · rw [if_pos h1] at h
        rcases ih acc h with h2 | h2
        · exact Or.inl h2
        · exact Or.inr ⟨List.mem_cons_of_mem c h2.1, h2.2⟩
      · rw [if_neg h1] at h
        by_cases h2 : c.timestamp_evento < earliest
        · rw [if_pos h2] at h
          rcases ih acc h with h3 | h3
          · exact Or.inl h3
          · exact Or.inr ⟨List.mem_cons_of_mem c h3.1, h3.2⟩
        · rw [if_neg h2] at h
          by_cases h3 : c.timestamp_evento > latest
          · rw [if_pos h3] at h
            exact Or.inl h
          · rw [if_neg h3] at h
            rcases ih _ h with h4 | h4
            · split at h4
              · rename_i hbet
                injection h4 with h4
                subst h4
                refine Or.inr ⟨List.mem_cons_self c rest, ?_, rfl, rfl⟩
                exact ⟨by simpa using h1, (by omega : earliest ≤ c.timestamp_evento),
                  (by omega : c.timestamp_evento ≤ latest)⟩
              · exact Or.inl h4
            · exact Or.inr ⟨List.mem_cons_of_mem c h4.1, h4.2⟩

/-- How the running best can evolve during the scan: the time difference
never grows, and on a preserved nonzero time difference the flight-number
distance never grows (and never goes from known to unknown). -/
def BestLe (a b : Best) : Prop :=
  b.diff ≤ a.diff ∧
  (b.diff = a.diff → b.diff ≠ 0 →
    ∀ an, a.ndiff = some an → ∃ bn, b.ndiff = some bn ∧ bn ≤ an)

theorem BestLe_refl (a : Best) : BestLe a a :=
  ⟨le_refl _, fun _ _ an han => ⟨an, han, le_refl an⟩⟩

theorem BestLe_trans (a m b : Best) (h1 : BestLe a m) (h2 : BestLe m b) : BestLe a b := by
  refine ⟨le_trans h2.1 h1.1, ?_⟩
  intro hdiff hne an han
  have hm : m.diff = a.diff := by
    have h3 := h1.1
    have h4 := h2.1
    omega
  obtain ⟨mn, hmn, hmle⟩ := h1.2 hm (by omega) an han
  obtain ⟨bn, hbn, hble⟩ := h2.2 (by omega) (by omega) mn hmn
  exact ⟨bn, hbn, le_trans hble hmle⟩

/-- A challenger accepted by `scan_better` is no worse than the incumbent. -/
theorem scan_better_true (a : Best) (c : Event) (diff : Int) (nd : Option Nat)
    (h : scan_better (some a) diff nd = true) : BestLe a ⟨c, diff, nd⟩ := by
  simp only [scan_better] at h
  by_cases hd : diff < a.diff
  · refine ⟨by simp only []; omega, ?_⟩
    intro hdiff hne an han
    simp only [] at hdiff
    omega
  · rw [if_neg hd] at h
    by_cases hp : a.diff ≠ 0 ∧ diff = a.diff ∧ nd.isSome = true
    · rw [if_pos hp] at h
      refine ⟨by simp only []; omega, ?_⟩
      intro hdiff hne an han
      rw [han] at h
      rcases hnd : nd with _ | n
      · rw [hnd] at hp
        simp at hp
      · rw [hnd] at h
        simp only [decide_eq_true_eq] at h
        exact ⟨n, by simp only [hnd], le_of_lt h⟩
    · rw [if_neg hp] at h
      simp at h

/-- A challenger rejected by `scan_better` does not beat the incumbent: it
is no nearer in time, and on a nonzero exact time tie with a numeric
challenger the incumbent already carries a flight-number distance at least
as small. -/
theorem scan_better_false (a : Best) (diff : Int) (nd : Option Nat)
    (h : scan_better (some a) diff nd = false) :
    a.diff ≤ diff ∧
      (a.diff ≠ 0 → diff = a.diff → ∀ n, nd = some n →
        ∃ an, a.ndiff = some an ∧ an ≤ n) := by
  simp only [scan_better] at h
  by_cases hd : diff < a.diff
  · rw [if_pos hd] at h
    simp at h
  · rw [if_neg hd] at h
    refine ⟨by omega, ?_⟩
    intro hne hdiff n hn
    have hp : a.diff ≠ 0 ∧ diff = a.diff ∧ nd.isSome = true := by
      refine ⟨hne, hdiff, ?_⟩
      rw [hn]
      rfl
    rw [if_pos hp, hn] at h
    rcases han : a.ndiff with _ | an
    · rw [han] at h
      simp at h
    · rw [han] at h
      simp only [decide_eq_false_iff_not] at h
      exact ⟨an, rfl, by omega⟩

/-- Scanning from a present accumulator yields a present result no worse
than the accumulator. -/
theorem scan_from_acc (arr_ts : Int) (arr_num : Str) (earliest latest : Int) (used : List Str)
    (cands : List Event) :
    ∀ a : Best, ∃ b, scan_candidates arr_ts arr_num earliest latest used cands (some a) = some b ∧
      BestLe a b := by
  induction cands with
  | nil =>
      intro a
      exact ⟨a, rfl, BestLe_refl a⟩
  | cons c rest ih =>
      intro a
      simp only [scan_candidates]
      by_cases h1 : used.contains c.event_id
      · rw [if_pos h1]
        exact ih a
      · rw [if_neg h1]
        by_cases h2 : c.timestamp_evento < earliest
        · rw [if_pos h2]
          exact ih a
        · rw [if_neg h2]
          by_cases h3 : c.timestamp_evento > latest
          · rw [if_pos h3]
            exact ⟨a, rfl, BestLe_refl a⟩
          · rw [if_neg h3]
            cases hbe : scan_better (some a) (c.timestamp_evento - arr_ts)
              (number_diff c.numero_voo_evento arr_num) with
            | true =>
                rw [if_pos rfl]
                obtain ⟨b, hb, hble⟩ := ih ⟨c, c.timestamp_evento - arr_ts,
                  number_diff c.numero_voo_evento arr_num⟩
                exact ⟨b, hb, BestLe_trans a _ b (scan_better_true a c _ _ hbe) hble⟩
            | false =>
                rw [if_neg (by decide : ¬(false = true))]
                exact ih a

/-- On a sorted candidate list, the scan result is at least as near in time
as every eligible candidate. -/
theorem scan_min (arr_ts : Int) (arr_num : Str) (earliest latest : Int) (used : List Str)
    (cands : List Event) (hs : SortedEvents cands) :
    ∀ (acc : Option Best) (c : Event), c ∈ cands → eligible used earliest latest c →
      ∃ b, scan_candidates arr_ts arr_num earliest latest used cands acc = some b ∧
        b.diff ≤ c.timestamp_evento - arr_ts := by
  induction cands with
  | nil =>
      intro acc c hc
      exact absurd hc (List.not_mem_nil c)
  | cons x rest ih =>
      intro acc c hc he
      rcases List.pairwise_cons.mp hs with ⟨hx, hrest⟩
      simp only [scan_candidates]
      by_cases h1 : used.contains x.event_id
      · rw [if_pos h1]
        rcases List.mem_cons.mp hc with rfl | hc
        · rw [he.1] at h1
          exact absurd h1 (by simp)
        · exact ih hrest acc c hc he
      · rw [if_neg h1]
        by_cases h2 : x.timestamp_evento < earliest
        · rw [if_pos h2]
          rcases List.mem_cons.mp hc with rfl | hc
          · exact absurd he.2.1 (by omega)
          · exact ih hrest acc c hc he
        · rw [if_neg h2]
          by_cases h3 : x.timestamp_evento > latest
          · rw [if_pos h3]
            rcases List.mem_cons.mp hc with rfl | hc
            · exact absurd he.2.2 (by omega)
            · have h4 := hx c hc
              exact absurd he.2.2 (by omega)
          · rw [if_neg h3]
            rcases List.mem_cons.mp hc with rfl | hc
            · cases hbe : scan_better acc (c.timestamp_evento - arr_ts)
                (number_diff c.numero_voo_evento arr_num) with
              | true =>
                  rw [if_pos rfl]
                  obtain ⟨b, hb, hble⟩ := scan_from_acc arr_ts arr_num earliest latest used rest
                    ⟨c, c.timestamp_evento - arr_ts, number_diff c.numero_voo_evento arr_num⟩
                  exact ⟨b, hb, hble.1⟩
              | false =>
                  rw [if_neg (by decide : ¬(false = true))]
                  rcases acc with _ | a
                  · simp [scan_better] at hbe
                  · obtain ⟨b, hb, hble⟩ := scan_from_acc arr_ts arr_num earliest latest used rest a
                    have hle := (scan_better_false a _ _ hbe).1
                    exact ⟨b, hb, by have h5 := hble.1; omega⟩
            · cases hbe : scan_better acc (x.timestamp_evento - arr_ts)
                (number_diff x.numero_voo_evento arr_num) with
              | true =>
                  rw [if_pos rfl]
                  exact ih hrest _ c hc he
              | false =>
                  rw [if_neg (by decide : ¬(false = true))]
                  exact ih hrest acc c hc he

/-- On a sorted candidate list, when the scan result has a nonzero time
difference, its flight-number distance is at least as small as that of any
eligible candidate tied at the same time difference (the tie-break). -/
theorem scan_tie (arr_ts : Int) (arr_num : Str) (earliest latest : Int) (used : List Str)
    (cands : List Event) (hs : SortedEvents cands) :
    ∀ (acc : Option Best) (b : Best) (c : Event),
      scan_candidates arr_ts arr_num earliest latest used cands acc = some b →
      c ∈ cands → eligible used earliest latest c →
      c.timestamp_evento - arr_ts = b.diff → b.diff ≠ 0 →
      ∀ n2, number_diff c.numero_voo_evento arr_num = some n2 →
      ∃ n1, b.ndiff = some n1 ∧ n1 ≤ n2 := by
  induction cands with
  | nil =>
      intro acc b c hscan hc
      exact absurd hc (List.not_mem_nil c)
  | cons x rest ih =>
      intro acc b c hscan hc he hdiff hne n2 hn2
      rcases List.pairwise_cons.mp hs with ⟨hx, hrest⟩
      simp only [scan_candidates] at hscan
      by_cases h1 : used.contains x.event_id
      · rw [if_pos h1] at hscan
        rcases List.mem_cons.mp hc with rfl | hc
        · rw [he.1] at h1
          exact absurd h1 (by simp)
        · exact ih hrest acc b c hscan hc he hdiff hne n2 hn2
      · rw [if_neg h1] at hscan
        by_cases h2 : x.timestamp_evento < earliest
        · rw [if_pos h2] at hscan
          rcases List.mem_cons.mp hc with rfl | hc
          · exact absurd he.2.1 (by omega)
          · exact ih hrest acc b c hscan hc he hdiff hne n2 hn2
        · rw [if_neg h2] at hscan
          by_cases h3 : x.timestamp_evento > latest
          · rw [if_pos h3] at hscan
            rcases List.mem_cons.mp hc with rfl | hc
            · exact absurd he.2.2 (by omega)
            · have h4 := hx c hc
              exact absurd he.2.2 (by omega)
          · rw [if_neg h3] at hscan
            rcases List.mem_cons.mp hc with rfl | hc
            · cases hbe : scan_better acc (c.timestamp_evento - arr_ts)
                (number_diff c.numero_voo_evento arr_num) with
              | true =>
                  rw [hbe, if_pos rfl] at hscan
                  obtain ⟨b2, hb2, hble⟩ := scan_from_acc arr_ts arr_num earliest latest used rest
                    ⟨c, c.timestamp_evento - arr_ts, number_diff c.numero_voo_evento arr_num⟩
                  rw [hscan] at hb2
                  injection hb2 with hb2
                  subst hb2
                  exact hble.2 (by simp only []; omega) hne n2 (by simp only [hn2])
              | false =>
                  rw [hbe, if_neg (by decide : ¬(false = true))] at hscan
                  rcases acc with _ | a
                  · simp [scan_better] at hbe
                  · obtain ⟨had, htr⟩ := scan_better_false a _ _ hbe
                    obtain ⟨b2, hb2, hble⟩ := scan_from_acc arr_ts arr_num earliest latest used rest a
                    rw [hscan] at hb2
                    injection hb2 with hb2
                    subst hb2
                    have hba := hble.1
                    have hda : a.diff = c.timestamp_evento - arr_ts := by omega
                    obtain ⟨an, han, hale⟩ := htr (by omega) hda.symm n2 hn2
                    obtain ⟨bn, hbn, hblen⟩ := hble.2 (by omega) hne an han
                    exact ⟨bn, hbn, by omega⟩
            · cases hbe : scan_better acc (x.timestamp_evento - arr_ts)
                (number_diff x.numero_voo_evento arr_num) with
              | true =>
                  rw [hbe, if_pos rfl] at hscan
                  exact ih hrest _ b c hscan hc he hdiff hne n2 hn2
              | false =>
                  rw [hbe, if_neg (by decide : ¬(false = true))] at hscan
                  exact ih hrest acc b c hscan hc he hdiff hne n2 hn2

/-! ## Lemmas about one arrival step and the linking loop -/

theorem process_arrival_scan_none (airport season : Str) (settings : Settings)
    (airport_country_map : List (Str × Str)) (departures : List Event)
    (used : List Str) (arrival : Event)
    (h : scan_candidates arrival.timestamp_evento arrival.numero_voo
      (arrival.timestamp_evento + settings.min_turnaround_minutes)
      (arrival.timestamp_evento + 36 * 60) used
      (departure_candidates departures arrival.cia arrival.act_type) none = none) :
    (process_arrival airport season settings airport_country_map departures used
      arrival).treated.departure_event_id = none ∧
    (process_arrival airport season settings airport_country_map departures used
      arrival).treated.link_status = str "no_departure" ∧
    (process_arrival airport season settings airport_country_map departures used
      arrival).treated.solo_min = settings.solo_open_minutes ∧
    (process_arrival airport season settings airport_country_map departures used
      arrival).treated.pnt_tst =
        some (if settings.solo_open_minutes > 240 then str "PNT" else str "TST") ∧
    (process_arrival airport season settings airport_country_map departures used
      arrival).treated.arrival_event_id = arrival.event_id ∧
    (process_arrival airport season settings airport_country_map departures used
      arrival).used_out = used := by
  simp only [process_arrival, h, classify_operation, Option.map_none]
  repeat' apply And.intro
  all_goals trivial

theorem process_arrival_scan_some (airport season : Str) (settings : Settings)
    (airport_country_map : List (Str × Str)) (departures : List Event)
    (used : List Str) (arrival : Event) (b : Best)
    (h : scan_candidates arrival.timestamp_evento arrival.numero_voo
      (arrival.timestamp_evento + settings.min_turnaround_minutes)
      (arrival.timestamp_evento + 36 * 60) used
      (departure_candidates departures arrival.cia arrival.act_type) none = some b) :
    (process_arrival airport season settings airport_country_map departures used
      arrival).treated.departure_event_id = some b.cand.event_id ∧
    (process_arrival airport season settings airport_country_map departures used
      arrival).treated.partida_utc = some b.cand.timestamp_evento ∧
    (process_arrival airport season settings airport_country_map departures used
      arrival).treated.link_status = str "linked" ∧
    (process_arrival airport season settings airport_country_map departures used
      arrival).treated.chegada_utc = arrival.timestamp_evento ∧
    (process_arrival airport season settings airport_country_map departures used
      arrival).used_out = b.cand.event_id :: used := by
  simp only [process_arrival, h, Option.map_some]
  repeat' apply And.intro
  all_goals trivial

theorem link_loop_length (airport season : Str) (settings : Settings)
    (airport_country_map : List (Str × Str)) (departures : List Event)
    (arrivals : List Event) :
    ∀ used, (link_loop airport season settings airport_country_map departures used
      arrivals).length = arrivals.length := by
  induction arrivals with
  | nil => intro used; rfl
  | cons a rest ih =>
      intro used
      simp only [link_loop, List.length_cons, ih]

theorem link_loop_get (airport season : Str) (settings : Settings)
    (airport_country_map : List (Str × Str)) (departures : List Event)
    (arrivals : List Event) :
    ∀ (used : List Str) (i : Nat) (hi : i < arrivals.length),
      ∃ used2, (link_loop airport season settings airport_country_map departures used
        arrivals).get? i =
        some (process_arrival airport season settings airport_country_map departures used2
          (arrivals.get ⟨i, hi⟩)) := by
  induction arrivals with
  | nil =>
      intro used i hi
      exact absurd hi (by simp)
  | cons a rest ih =>
      intro used i hi
      cases i with
      | zero => exact ⟨used, rfl⟩
      | succ j =>
          have hj : j < rest.length := by simpa using hi
          obtain ⟨used2, h2⟩ := ih ((process_arrival airport season settings airport_country_map
            departures used a).used_out) j hj
          exact ⟨used2, h2⟩

theorem link_loop_dep_ids (airport season : Str) (settings : Settings)
    (airport_country_map : List (Str × Str)) (departures : List Event)
    (arrivals : List Event) :
    ∀ used,
      (∀ i ∈ (link_loop airport season settings airport_country_map departures used
          arrivals).filterMap (fun o => o.treated.departure_event_id),
        used.contains i = false) ∧
      ((link_loop airport season settings airport_country_map departures used
          arrivals).filterMap (fun o => o.treated.departure_event_id)).Nodup := by
  induction arrivals with
  | nil =>
      intro used
      exact ⟨by simp [link_loop], by simp [link_loop]⟩
  | cons a rest ih =>
      intro used
      simp only [link_loop, List.filterMap_cons]
      cases hscan : scan_candidates a.timestamp_evento a.numero_voo
          (a.timestamp_evento + settings.min_turnaround_minutes)
          (a.timestamp_evento + 36 * 60) used
          (departure_candidates departures a.cia a.act_type) none with
      | none =>
          obtain ⟨hdep, _, _, _, _, hused⟩ := process_arrival_scan_none airport season settings
            airport_country_map departures used a hscan
          rw [hdep, hused]
          exact ih used
      | some b =>
          obtain ⟨hdep, _, _, _, hused⟩ := process_arrival_scan_some airport season settings
            airport_country_map departures used a b hscan
          rw [hdep, hused]
          have helig : used.contains b.cand.event_id = false := by
            rcases scan_result a.timestamp_evento a.numero_voo
                (a.timestamp_evento + settings.min_turnaround_minutes)
                (a.timestamp_evento + 36 * 60) used
                (departure_candidates departures a.cia a.act_type) none b hscan with h | h
            · exact absurd h (by simp)
            · exact h.2.1.1
          obtain ⟨ihmem, ihnodup⟩ := ih (b.cand.event_id :: used)
          constructor
          · intro i hi
            rcases List.mem_cons.mp hi with rfl | hi
            · exact helig
            · have h2 := ihmem i hi
              simp only [List.contains_cons, Bool.or_eq_false_iff] at h2
              exact h2.2
          · refine List.nodup_cons.mpr ⟨?_, ihnodup⟩
            intro hmem
            have h2 := ihmem b.cand.event_id hmem
            simp [List.contains_cons] at h2

/-- C1: within one `link_airport` run, no two LinkedFlight rows reference
the same departure event id: each departure event is consumed by at most one
LinkedFlight, and a consumed departure is never reassigned. -/
theorem C1_link_airport_departure_exclusive (frame : List Leg) (airport season : Str)
    (settings : Settings) (airport_country_map : List (Str × Str)) :
    ((link_airport frame airport season settings airport_country_map).voos_tratados.filterMap
      (fun r => r.departure_event_id)).Nodup := by
  simp only [link_airport]
  rw [List.filterMap_map]
  exact (link_loop_dep_ids (upperStr airport) season settings airport_country_map
    (prepare_departures frame (upperStr airport))
    (prepare_arrivals frame (upperStr airport)) []).2

/-! ## C2 and C9: candidate selection -/

/-- C2 (amended): whenever `process_arrival` (the loop body of
`link_airport`, at an arbitrary consumed-set state) links a departure, the
linked candidate shares the arrival key, was unused, lies inside
`[arrival + minTurnaround, arrival + 36 h]`, has the smallest time
difference among all such candidates, and on an exact **nonzero** tie in
time difference carries a numeric flight-number distance at least as small
as any tied numeric candidate.  (The original claim without the nonzero
qualifier fails: a zero best time difference is falsy in the tie-break
guard, see the counterexample.) -/
theorem C2_linked_departure_optimal_amended (airport season : Str) (settings : Settings)
    (airport_country_map : List (Str × Str)) (departures : List Event) (used : List Str)
    (arrival : Event) (hs : SortedEvents departures) (did : Str)
    (hdid : (process_arrival airport season settings airport_country_map departures used
      arrival).treated.departure_event_id = some did) :
    ∃ c ∈ departure_candidates departures arrival.cia arrival.act_type,
      c.event_id = did ∧
      (process_arrival airport season settings airport_country_map departures used
        arrival).treated.partida_utc = some c.timestamp_evento ∧
      used.contains c.event_id = false ∧
      arrival.timestamp_evento + settings.min_turnaround_minutes ≤ c.timestamp_evento ∧
      c.timestamp_evento ≤ arrival.timestamp_evento + 36 * 60 ∧
      (∀ d ∈ departure_candidates departures arrival.cia arrival.act_type,
        used.contains d.event_id = false →
        arrival.timestamp_evento + settings.min_turnaround_minutes ≤ d.timestamp_evento →
        d.timestamp_evento ≤ arrival.timestamp_evento + 36 * 60 →
        c.timestamp_evento - arrival.timestamp_evento ≤
          d.timestamp_evento - arrival.timestamp_evento) ∧
      (c.timestamp_evento ≠ arrival.timestamp_evento →
        ∀ d ∈ departure_candidates departures arrival.cia arrival.act_type,
          used.contains d.event_id = false →
          d.timestamp_evento = c.timestamp_evento →
          ∀ n2, number_diff d.numero_voo_evento arrival.numero_voo = some n2 →
          ∃ n1, number_diff c.numero_voo_evento arrival.numero_voo = some n1 ∧ n1 ≤ n2) := by
  have hcands : SortedEvents (departure_candidates departures arrival.cia arrival.act_type) :=
    departure_candidates_sorted departures arrival.cia arrival.act_type hs
  cases hscan : scan_candidates arrival.timestamp_evento arrival.numero_voo
      (arrival.timestamp_evento + settings.min_turnaround_minutes)
      (arrival.timestamp_evento + 36 * 60) used
      (departure_candidates departures arrival.cia arrival.act_type) none with
  | none =>
      have h := (process_arrival_scan_none airport season settings airport_country_map
        departures used arrival hscan).1
      rw [h] at hdid
      exact absurd hdid (by simp)
  | some b =>
      obtain ⟨hdep, hpart, _, _, _⟩ := process_arrival_scan_some airport season settings
        airport_country_map departures used arrival b hscan
      rw [hdep] at hdid
      injection hdid with hdid
      rcases scan_result arrival.timestamp_evento arrival.numero_voo
          (arrival.timestamp_evento + settings.min_turnaround_minutes)
          (arrival.timestamp_evento + 36 * 60) used
          (departure_candidates departures arrival.cia arrival.act_type) none b hscan with
        h | ⟨hmem, helig, hbdiff, hbnd⟩
      · exact absurd h (by simp)
      obtain ⟨hbu, hblo, hbhi⟩ := helig
      refine ⟨b.cand, hmem, hdid, by rw [hpart], hbu, hblo, hbhi, ?_, ?_⟩
      · intro d hd hdused hdlo hdhi
        obtain ⟨b2, hb2, hble⟩ := scan_min arrival.timestamp_evento arrival.numero_voo
          (arrival.timestamp_evento + settings.min_turnaround_minutes)
          (arrival.timestamp_evento + 36 * 60) used
          (departure_candidates departures arrival.cia arrival.act_type) hcands none d hd
          ⟨hdused, hdlo, hdhi⟩
        rw [hscan] at hb2
        injection hb2 with hb2
        subst hb2
        omega
      · intro hne d hd hdused hdts n2 hn2
        have hbne : b.diff ≠ 0 := by omega
        obtain ⟨n1, hn1, hle⟩ := scan_tie arrival.timestamp_evento arrival.numero_voo
          (arrival.timestamp_evento + settings.min_turnaround_minutes)
          (arrival.timestamp_evento + 36 * 60) used
          (departure_candidates departures arrival.cia arrival.act_type) hcands none b d hscan
          hd ⟨hdused, by omega, by omega⟩ (by omega) hbne n2 hn2
        rw [hbnd] at hn1
        exact ⟨n1, hn1, hle⟩

/-- Leg-row builder for the concrete scenarios below. -/
def mkTestLeg (cia num act orig dest : Str) (dep arr : Option Int) (fid : Str) : Leg :=
  { cia := cia, numero_voo := num, act_type := act, origem := orig, destino := dest,
    dt_partida_utc := dep, dt_chegada_utc := arr, natureza := none, service_type := none,
    assentos_previstos := none, temporada := none, aeroporto_operacao := none,
    flight_id := fid }

def tie0_settings : Settings :=
  { min_turnaround_minutes := 0, solo_open_minutes := 180,
    rounding_granularity_minutes := 10, default_season := none }

def tie0_arr : Leg :=
  mkTestLeg (str "AA") (str "100") (str "738") (str "AAA") (str "XYZ") (some 0) (some 100)
    (str "f1")

def tie0_dep1 : Leg :=
  mkTestLeg (str "AA") (str "500") (str "738") (str "XYZ") (str "BBB") (some 100) (some 200)
    (str "f2")

def tie0_dep2 : Leg :=
  mkTestLeg (str "AA") (str "101") (str "738") (str "XYZ") (str "CCC") (some 100) (some 200)
    (str "f3")

def tie0_res : AirportLinkResult :=
  link_airport [tie0_arr, tie0_dep1, tie0_dep2] (str "XYZ") (str "S25") tie0_settings []

/-- C2 counterexample: with a zero minimum turnaround, an arrival at the
same instant as two same-key departures ties both at time difference zero;
the claimed flight-number tie-break would select flight 101 (numeric
distance 1), but the run links the first-scanned flight 500 (numeric
distance 400). -/
theorem C2_counterexample_zero_diff_tie :
    tie0_res.voos_tratados.map (fun r => r.departure_event_id) =
      [some (uuid5 (str "f2:DEP:XYZ"))] ∧
    tie0_dep1.flight_id = str "f2" ∧ tie0_dep2.flight_id = str "f3" ∧
    tie0_dep1.dt_partida_utc = some 100 ∧ tie0_dep2.dt_partida_utc = some 100 ∧
    tie0_arr.dt_chegada_utc = some 100 ∧ tie0_settings.min_turnaround_minutes = 0 ∧
    number_diff tie0_dep1.numero_voo tie0_arr.numero_voo = some 400 ∧
    number_diff tie0_dep2.numero_voo tie0_arr.numero_voo = some 1 := by
  decide

/-- C9: with minTurnaround 0 and a departure sharing the arrival timestamp,
the best time difference is zero, which is falsy in the tie-break guard; a
later candidate at the same zero time difference with a strictly closer
numeric flight number (distance 1 versus 400) is not preferred over the
first-scanned zero-difference candidate. -/
theorem C9_zero_time_difference_skips_tie_break :
    tie0_res.voos_tratados.map (fun r => (r.link_status, r.departure_event_id)) =
      [(str "linked", some (uuid5 (str "f2:DEP:XYZ")))] ∧
    tie0_settings.min_turnaround_minutes = 0 ∧
    tie0_dep1.dt_partida_utc = tie0_arr.dt_chegada_utc ∧
    tie0_dep2.dt_partida_utc = tie0_arr.dt_chegada_utc ∧
    number_diff tie0_dep1.numero_voo tie0_arr.numero_voo = some 400 ∧
    number_diff tie0_dep2.numero_voo tie0_arr.numero_voo = some 1 := by
  decide

def c2w_settings : Settings :=
  { min_turnaround_minutes := 30, solo_open_minutes := 180,
    rounding_granularity_minutes := 10, default_season := none }

def c2w_arrival : Event :=
  { cia := str "AA", numero_voo := str "100", act_type := str "738", origem := str "AAA",
    destino := str "XYZ", natureza := none, service_type := none, assentos_previstos := none,
    flight_id := str "f1", evento := str "ARR", timestamp_evento := 100,
    numero_voo_evento := str "100", event_id := str "ea" }

def c2w_dep : Event :=
  { cia := str "AA", numero_voo := str "101", act_type := str "738", origem := str "XYZ",
    destino := str "BBB", natureza := none, service_type := none, assentos_previstos := none,
    flight_id := str "f2", evento := str "DEP", timestamp_evento := 150,
    numero_voo_evento := str "101", event_id := str "ed" }

theorem C2_linked_departure_optimal_amended_witness :
    ∃ c ∈ departure_candidates [c2w_dep] c2w_arrival.cia c2w_arrival.act_type,
      c.event_id = str "ed" ∧
      (process_arrival (str "XYZ") (str "S25") c2w_settings [] [c2w_dep] []
        c2w_arrival).treated.partida_utc = some c.timestamp_evento := by
  obtain ⟨c, hc, hid, hpart, _⟩ := C2_linked_departure_optimal_amended (str "XYZ") (str "S25")
    c2w_settings [] [c2w_dep] [] c2w_arrival (by simp [SortedEvents]) (str "ed") (by decide)
  exact ⟨c, hc, hid, hpart⟩

/-! ## C5: no-departure fallback -/

/-- A scan over candidates none of which lies in the turnaround window
finds nothing, whatever the consumed set. -/
theorem scan_none_of_no_candidate (arr_ts : Int) (arr_num : Str) (earliest latest : Int)
    (cands : List Event)
    (h : ∀ c ∈ cands, ¬(earliest ≤ c.timestamp_evento ∧ c.timestamp_evento ≤ latest)) :
    ∀ used, scan_candidates arr_ts arr_num earliest latest used cands none = none := by
  induction cands with
  | nil =>
      intro used
      rfl
  | cons c rest ih =>
      intro used
      have hrest : ∀ d ∈ rest, ¬(earliest ≤ d.timestamp_evento ∧ d.timestamp_evento ≤ latest) :=
        fun d hd => h d (List.mem_cons_of_mem c hd)
      have hc := h c (List.mem_cons_self c rest)
      simp only [scan_candidates]
      by_cases h1 : used.contains c.event_id
      · rw [if_pos h1]
        exact ih hrest used
      · rw [if_neg h1]
        by_cases h2 : c.timestamp_evento < earliest
        · rw [if_pos h2]
          exact ih hrest used
        · rw [if_neg h2]
          rw [if_pos (by omega : c.timestamp_evento > latest)]

/-- C5 (amended): provided every arrival row carries a present nature value
and the timestamp columns are present (a nature-less tabular payload instead
aborts the run with the `pd.NA` TypeError before any row is emitted, see the
counterexample), an arrival with zero eligible departures (no departure of
its carrier and aircraft type inside the turnaround window) yields, without
failing, exactly one treated row — one row per arrival, and the row of that
arrival has `link_status = "no_departure"`, ground time equal to the
configured open horizon, and the PNT/TST class computed from that horizon
(PNT exactly when it exceeds 240 minutes). -/
theorem C5_no_departure_fallback (frame : List Leg) (airport season : Str)
    (settings : Settings) (airport_country_map : List (Str × Str)) (i : Nat)
    (hi : i < (prepare_arrivals frame (upperStr airport)).length)
    (hnat : (prepare_arrivals frame (upperStr airport)).all
      (fun a => a.natureza.isSome) = true)
    (hno : ∀ d ∈ prepare_departures frame (upperStr airport),
      d.cia = ((prepare_arrivals frame (upperStr airport)).get ⟨i, hi⟩).cia →
      d.act_type = ((prepare_arrivals frame (upperStr airport)).get ⟨i, hi⟩).act_type →
      ¬(((prepare_arrivals frame (upperStr airport)).get ⟨i, hi⟩).timestamp_evento +
          settings.min_turnaround_minutes ≤ d.timestamp_evento ∧
        d.timestamp_evento ≤ ((prepare_arrivals frame (upperStr airport)).get
          ⟨i, hi⟩).timestamp_evento + 36 * 60)) :
    link_airport_run true true frame airport season settings airport_country_map =
      Except.ok (link_airport frame airport season settings airport_country_map) ∧
    (link_airport frame airport season settings airport_country_map).voos_tratados.length =
      (prepare_arrivals frame (upperStr airport)).length ∧
    ∃ r, (link_airport frame airport season settings
        airport_country_map).voos_tratados.get? i = some r ∧
      r.link_status = str "no_departure" ∧
      r.solo_min = settings.solo_open_minutes ∧
      r.pnt_tst = some (if settings.solo_open_minutes > 240 then str "PNT" else str "TST") ∧
      r.arrival_event_id =
        ((prepare_arrivals frame (upperStr airport)).get ⟨i, hi⟩).event_id := by
  refine ⟨?_, ?_, ?_⟩
  · simp [link_airport_run, hnat]
  · simp only [link_airport, List.length_map]
    exact link_loop_length (upperStr airport) season settings airport_country_map
      (prepare_departures frame (upperStr airport)) (prepare_arrivals frame (upperStr airport)) []
  · obtain ⟨used2, hget⟩ := link_loop_get (upperStr airport) season settings airport_country_map
      (prepare_departures frame (upperStr airport)) (prepare_arrivals frame (upperStr airport))
      [] i hi
    set a := (prepare_arrivals frame (upperStr airport)).get ⟨i, hi⟩ with ha
    have hscan : scan_candidates a.timestamp_evento a.numero_voo
        (a.timestamp_evento + settings.min_turnaround_minutes)
        (a.timestamp_evento + 36 * 60) used2
        (departure_candidates (prepare_departures frame (upperStr airport)) a.cia a.act_type)
        none = none := by
      apply scan_none_of_no_candidate
      intro c hc
      rcases List.mem_filter.mp hc with ⟨hcmem, hckey⟩
      simp only [Bool.and_eq_true, beq_iff_eq] at hckey
      exact hno c hcmem hckey.1 hckey.2
    obtain ⟨hdep, hstat, hsolo, hpnt, haid, _⟩ := process_arrival_scan_none (upperStr airport)
      season settings airport_country_map (prepare_departures frame (upperStr airport)) used2 a
      hscan
    refine ⟨(process_arrival (upperStr airport) season settings airport_country_map
      (prepare_departures frame (upperStr airport)) used2 a).treated, ?_, hstat, hsolo, hpnt, haid⟩
    simp only [link_airport, List.get?_map, hget]
    rfl

def c5w_arr : Leg :=
  { cia := str "AA", numero_voo := str "100", act_type := str "738", origem := str "AAA",
    destino := str "XYZ", dt_partida_utc := some 0, dt_chegada_utc := some 100,
    natureza := some (str "PAX"), service_type := none, assentos_previstos := none,
    temporada := none, aeroporto_operacao := none, flight_id := str "f1" }

theorem C5_no_departure_fallback_witness :
    link_airport_run true true [c5w_arr] (str "XYZ") (str "S25") c2w_settings [] =
      Except.ok (link_airport [c5w_arr] (str "XYZ") (str "S25") c2w_settings []) ∧
    ∃ r, (link_airport [c5w_arr] (str "XYZ") (str "S25") c2w_settings
        []).voos_tratados.get? 0 = some r ∧
      r.link_status = str "no_departure" ∧ r.solo_min = 180 ∧ r.pnt_tst = some (str "TST") := by
  obtain ⟨hrun, hlen, r, hr, hstat, hsolo, hpnt, haid⟩ := C5_no_departure_fallback [c5w_arr]
    (str "XYZ") (str "S25") c2w_settings [] 0 (by decide) (by decide) (by decide)
  refine ⟨hrun, r, hr, hstat, ?_, ?_⟩
  · rw [hsolo]
    decide
  · rw [hpnt]
    decide

/-! ## Counterexample fixture: a tabular payload with no nature column.

`parse_schedule_text` resolves the required headers of this payload, so the
parse succeeds, but the frame carries no `natureza` column and the parser
fills it with NA (`none` here). When `link_airport` then processes the one
arrival at XYZ, the source evaluates `arrival.get("natureza") or ""`
(linker.py line 209) on that NA value and Python raises
`TypeError: boolean value of NA is ambiguous` before any treated row or
ground slot is produced. `link_airport_run` reproduces this error path. -/

deriving instance DecidableEq for Except

def c5x_payload : Str :=
  str "cia;numero_voo;act_type;origem;destino;chegada_utc;partida_utc\nAA;100;738;AAA;XYZ;2025-06-01 10:00;2025-06-01 08:30"

def c5x_rows : List RawLeg :=
  match parse_schedule_text c5x_payload with
  | Except.ok rows => rows
  | Except.error _ => []

def c5x_frame : List Leg := assign_raw_ids c5x_rows (str "S25")

/-- C5 counterexample: a well-formed tabular payload without a nature
column parses successfully into one leg arriving at XYZ, with `natureza`
filled as NA; XYZ sees one arrival and no departure, yet linking raises
the pd.NA TypeError at linker.py line 209 instead of emitting the
no-departure fallback row. -/
theorem C5_counterexample_natureza_na :
    parse_schedule_text c5x_payload = Except.ok c5x_rows ∧
    c5x_rows.map (fun r => (r.natureza, r.destino)) = [(none, str "XYZ")] ∧
    (prepare_arrivals c5x_frame (upperStr (str "XYZ"))).length = 1 ∧
    prepare_departures c5x_frame (upperStr (str "XYZ")) = [] ∧
    link_airport_run true true c5x_frame (str "XYZ") (str "S25") c2w_settings [] =
      Except.error (str "TypeError: boolean value of NA is ambiguous") := by decide

/-- C10 counterexample: the same parsed arrival with NA nature, under the
nonnegative engine configuration (granularity 10, turnaround 30, open
horizon 180), makes the linking run raise before any GroundSlot is
expanded, so no slot at all is emitted for that arrival. -/
theorem C10_counterexample_natureza_na :
    (prepare_arrivals c5x_frame (upperStr (str "XYZ"))).map (fun a => a.natureza) = [none] ∧
    c2w_settings.rounding_granularity_minutes = 10 ∧
    c2w_settings.min_turnaround_minutes = 30 ∧
    c2w_settings.solo_open_minutes = 180 ∧
    link_airport_run true true c5x_frame (str "XYZ") (str "S25") c2w_settings [] =
      Except.error (str "TypeError: boolean value of NA is ambiguous") := by decide

/-! ## C10: at least one ground slot per arrival -/

/-- Under a nonnegative open horizon, the ground-slot rows of one arrival
are never empty when the arrival slot is the rounded arrival time and the
departure slot, when present, is the rounded timestamp of a departure not
earlier than the arrival. -/
theorem ground_slot_rows_ne_nil (season airport voo_id cia classe dom_int : Str)
    (pnt_tst : Option Str) (settings : Settings) (arrival_time : Int)
    (departure_time : Option Int) (chegada_slot partida_slot : Option Int)
    (hg : settings.rounding_granularity_minutes = 5 ∨
      settings.rounding_granularity_minutes = 10 ∨ settings.rounding_granularity_minutes = 15)
    (hsolo : 0 ≤ settings.solo_open_minutes)
    (hcheg : chegada_slot = some (roundv arrival_time settings.rounding_granularity_minutes))
    (hp : partida_slot = none ∨ ∃ dep, arrival_time ≤ dep ∧
      partida_slot = some (roundv dep settings.rounding_granularity_minutes)) :
    ground_slot_rows season airport voo_id cia classe dom_int pnt_tst settings arrival_time
      departure_time chegada_slot partida_slot ≠ [] := by
  have hg2 : 0 < settings.rounding_granularity_minutes := by rcases hg with h | h | h <;> omega
  have hb : settings.rounding_granularity_minutes ≤ 100000 := by
    rcases hg with h | h | h <;> omega
  simp only [ground_slot_rows]
  rw [Ne, List.map_eq_nil]
  rcases hp with hp | ⟨dep, hdep, hp⟩
  · rw [hp, hcheg, round_to_slot_some]
    exact slot_range_ne_nil _ _ _
      (roundv_mono arrival_time (arrival_time + settings.solo_open_minutes) _ (by omega) hg2 hb)
  · rw [hp, hcheg]
    exact slot_range_ne_nil _ _ _ (roundv_mono arrival_time dep _ hdep hg2 hb)

theorem process_arrival_solo_ne_nil (airport season : Str) (settings : Settings)
    (airport_country_map : List (Str × Str)) (departures : List Event)
    (used : List Str) (arrival : Event)
    (hg : settings.rounding_granularity_minutes = 5 ∨
      settings.rounding_granularity_minutes = 10 ∨ settings.rounding_granularity_minutes = 15)
    (hmin : 0 ≤ settings.min_turnaround_minutes)
    (hsolo : 0 ≤ settings.solo_open_minutes) :
    (process_arrival airport season settings airport_country_map departures used
      arrival).solo ≠ [] := by
  cases hscan : scan_candidates arrival.timestamp_evento arrival.numero_voo
      (arrival.timestamp_evento + settings.min_turnaround_minutes)
      (arrival.timestamp_evento + 36 * 60) used
      (departure_candidates departures arrival.cia arrival.act_type) none with
  | none =>
      simp only [process_arrival, hscan]
      apply ground_slot_rows_ne_nil _ _ _ _ _ _ _ _ _ _ _ _ hg hsolo
      · exact round_to_slot_some _ _
      · left
        rfl
  | some b =>
      have helig : arrival.timestamp_evento ≤ b.cand.timestamp_evento := by
        rcases scan_result arrival.timestamp_evento arrival.numero_voo
            (arrival.timestamp_evento + settings.min_turnaround_minutes)
            (arrival.timestamp_evento + 36 * 60) used
            (departure_candidates departures arrival.cia arrival.act_type) none b hscan with
          h | h
        · exact absurd h (by simp)
        · have h2 := h.2.1.2.1
          omega
      simp only [process_arrival, hscan]
      apply ground_slot_rows_ne_nil _ _ _ _ _ _ _ _ _ _ _ _ hg hsolo
      · exact round_to_slot_some _ _
      · right
        exact ⟨b.cand.timestamp_evento, helig, round_to_slot_some _ _⟩

theorem link_loop_solo_length (airport season : Str) (settings : Settings)
    (airport_country_map : List (Str × Str)) (departures : List Event)
    (arrivals : List Event)
    (hg : settings.rounding_granularity_minutes = 5 ∨
      settings.rounding_granularity_minutes = 10 ∨ settings.rounding_granularity_minutes = 15)
    (hmin : 0 ≤ settings.min_turnaround_minutes)
    (hsolo : 0 ≤ settings.solo_open_minutes) :
    ∀ used, arrivals.length ≤
      ((link_loop airport season settings airport_country_map departures used
        arrivals).map (fun o => o.solo)).flatten.length := by
  induction arrivals with
  | nil =>
      intro used
      simp [link_loop]
  | cons a rest ih =>
      intro used
      simp only [link_loop, List.map_cons, List.flatten_cons, List.length_append,
        List.length_cons]
      have h1 : 1 ≤ (process_arrival airport season settings airport_country_map departures
          used a).solo.length := by
        have h2 := process_arrival_solo_ne_nil airport season settings airport_country_map
          departures used a hg hmin hsolo
        cases hl : (process_arrival airport season settings airport_country_map departures
            used a).solo with
        | nil => exact absurd hl h2
        | cons x xs => simp
      have h3 := ih ((process_arrival airport season settings airport_country_map departures
        used a).used_out)
      omega

/-- C10 (amended): under a nonnegative minimum turnaround and open horizon
and an engine granularity, and provided every arrival carries a present
nature value and the timestamp columns are present (otherwise the run raises
before emitting any slot, see the counterexample): the run returns without
raising, rounding is monotone, so the occupancy end slot is never earlier
than the arrival slot and the loop emits at least one GroundSlot for each
individual arrival; the ground-slot table is exactly the concatenation of
these per-arrival blocks and therefore holds at least one row per arrival. -/
theorem C10_ground_slot_per_arrival (frame : List Leg) (airport season : Str)
    (settings : Settings) (airport_country_map : List (Str × Str))
    (hmin : 0 ≤ settings.min_turnaround_minutes)
    (hsolo : 0 ≤ settings.solo_open_minutes)
    (hg : settings.rounding_granularity_minutes = 5 ∨
      settings.rounding_granularity_minutes = 10 ∨
      settings.rounding_granularity_minutes = 15)
    (hnat : (prepare_arrivals frame (upperStr airport)).all
      (fun a => a.natureza.isSome) = true) :
    link_airport_run true true frame airport season settings airport_country_map =
      Except.ok (link_airport frame airport season settings airport_country_map) ∧
    (∀ x y a b : Int, x ≤ y →
      round_to_slot (some x) settings.rounding_granularity_minutes = some a →
      round_to_slot (some y) settings.rounding_granularity_minutes = some b → a ≤ b) ∧
    (∀ (i : Nat) (hi : i < (prepare_arrivals frame (upperStr airport)).length),
      ∃ used2 : List Str,
        (link_loop (upperStr airport) season settings airport_country_map
          (prepare_departures frame (upperStr airport)) []
          (prepare_arrivals frame (upperStr airport))).get? i =
          some (process_arrival (upperStr airport) season settings airport_country_map
            (prepare_departures frame (upperStr airport)) used2
            ((prepare_arrivals frame (upperStr airport)).get ⟨i, hi⟩)) ∧
        (process_arrival (upperStr airport) season settings airport_country_map
          (prepare_departures frame (upperStr airport)) used2
          ((prepare_arrivals frame (upperStr airport)).get ⟨i, hi⟩)).solo ≠ []) ∧
    (link_airport frame airport season settings airport_country_map).slots_solo =
      ((link_loop (upperStr airport) season settings airport_country_map
        (prepare_departures frame (upperStr airport)) []
        (prepare_arrivals frame (upperStr airport))).map (fun o => o.solo)).flatten ∧
    (prepare_arrivals frame (upperStr airport)).length ≤
      (link_airport frame airport season settings airport_country_map).slots_solo.length := by
  have hg2 : 0 < settings.rounding_granularity_minutes := by rcases hg with h | h | h <;> omega
  have hb : settings.rounding_granularity_minutes ≤ 100000 := by
    rcases hg with h | h | h <;> omega
  refine ⟨?_, ?_, ?_, rfl, ?_⟩
  · simp [link_airport_run, hnat]
  · intro x y a b hxy hxa hyb
    rw [round_to_slot_some] at hxa hyb
    injection hxa with hxa
    injection hyb with hyb
    subst hxa
    subst hyb
    exact roundv_mono x y _ hxy hg2 hb
  · intro i hi
    obtain ⟨used2, hget⟩ := link_loop_get (upperStr airport) season settings
      airport_country_map (prepare_departures frame (upperStr airport))
      (prepare_arrivals frame (upperStr airport)) [] i hi
    exact ⟨used2, hget, process_arrival_solo_ne_nil (upperStr airport) season settings
      airport_country_map (prepare_departures frame (upperStr airport)) used2
      ((prepare_arrivals frame (upperStr airport)).get ⟨i, hi⟩) hg hmin hsolo⟩
  · simp only [link_airport]
    exact link_loop_solo_length (upperStr airport) season settings airport_country_map
      (prepare_departures frame (upperStr airport)) (prepare_arrivals frame (upperStr airport))
      hg hmin hsolo []

theorem C10_ground_slot_per_arrival_witness :
    link_airport_run true true [c5w_arr] (str "XYZ") (str "S25") c2w_settings [] =
      Except.ok (link_airport [c5w_arr] (str "XYZ") (str "S25") c2w_settings []) ∧
    1 ≤ (link_airport [c5w_arr] (str "XYZ") (str "S25") c2w_settings []).slots_solo.length := by
  have h := C10_ground_slot_per_arrival [c5w_arr] (str "XYZ") (str "S25") c2w_settings []
    (by decide) (by decide) (by decide) (by decide)
  have hlen : (prepare_arrivals [c5w_arr] (upperStr (str "XYZ"))).length = 1 := by decide
  have h2 := h.2.2.2.2
  exact ⟨h.1, by omega⟩

/-! ## C7: coverage flag on ground slots -/

/-- Length of a time interval given as a pair (empty when degenerate). -/
def ivLen (a : Int × Int) : Int := max 0 (a.2 - a.1)

/-- Length of the intersection of two intervals. -/
def ivInterLen (a b : Int × Int) : Int := max 0 (min a.2 b.2 - max a.1 b.1)

/-- Length of the union of two intervals (inclusion-exclusion). -/
def ivUnionLen (a b : Int × Int) : Int := ivLen a + ivLen b - ivInterLen a b

/-- An interval clipped to `[lo, hi]`. -/
def clipIv (w : Int × Int) (lo hi : Int) : Int × Int := (max w.1 lo, min w.2 hi)

/-- The coverage condition of the claim: the ground interval
`[arr, dep]` is covered, within a one-minute tolerance, by the union of the
arrival window `[arr - 10, arr + 30]` and the departure window
`[dep - 30, dep + 10]`, each clipped to the ground interval. -/
def ground_service_covered (arr dep : Int) : Prop :=
  ivUnionLen (clipIv (arr - 10, arr + 30) arr dep) (clipIv (dep - 30, dep + 10) arr dep) ≥
    (dep - arr) - 1

theorem full_attendance_of_covered (arr dep : Int) (hlt : arr < dep)
    (hcov : ground_service_covered arr dep) :
    full_attendance_flag arr (some dep) = true := by
  simp only [ground_service_covered, ivUnionLen, ivLen, ivInterLen, clipIv] at hcov
  simp only [full_attendance_flag]
  rw [if_pos (by omega : dep > arr)]
  rw [if_pos (by omega : min (arr + 30) dep > max (arr - 10) arr)]
  rw [if_pos (by omega : min (dep + 10) dep > max (dep - 30) arr)]
  simp only [List.singleton_append, merge_spans, sortSpans, List.foldr, insertBySpanStart]
  rw [if_pos (by omega : max (arr - 10) arr ≤ max (dep - 30) arr)]
  by_cases hov : max (dep - 30) arr ≤ min (arr + 30) dep
  · simp only [merge_sorted_spans, if_pos hov, spans_length, List.foldl]
    simp only [decide_eq_true_eq]
    omega
  · simp only [merge_sorted_spans, if_neg hov, spans_length, List.foldl]
    simp only [decide_eq_true_eq]
    omega

/-- Every ground slot of a linked arrival whose ground interval satisfies
the coverage condition carries the passenger-service flag. -/
theorem ground_slot_rows_all_flagged (season airport voo_id cia classe dom_int : Str)
    (pnt_tst : Option Str) (settings : Settings) (arrival_time dep : Int)
    (chegada_slot partida_slot : Option Int)
    (hg : settings.rounding_granularity_minutes = 5 ∨
      settings.rounding_granularity_minutes = 10 ∨ settings.rounding_granularity_minutes = 15)
    (hcheg : chegada_slot = some (roundv arrival_time settings.rounding_granularity_minutes))
    (hpart : partida_slot = some (roundv dep settings.rounding_granularity_minutes))
    (hcov : ground_service_covered arrival_time dep) :
    ∀ s ∈ ground_slot_rows season airport voo_id cia classe dom_int pnt_tst settings
      arrival_time (some dep) chegada_slot partida_slot,
      s.atendimento_embarque_desembarque = true := by
  have hg2 : 0 < settings.rounding_granularity_minutes := by rcases hg with h | h | h <;> omega
  have hb : settings.rounding_granularity_minutes ≤ 100000 := by
    rcases hg with h | h | h <;> omega
  have hb15 : settings.rounding_granularity_minutes ≤ 15 := by
    rcases hg with h | h | h <;> omega
  intro s hs
  simp only [ground_slot_rows, hcheg, hpart] at hs
  rcases List.mem_map.mp hs with ⟨slot, hslot, rfl⟩
  by_cases hlt : arrival_time < dep
  · have hfull := full_attendance_of_covered arrival_time dep hlt hcov
    simp only [ground_slot_flag, hfull, Bool.true_or, Bool.not_true, Bool.false_and]
    rw [if_neg (by decide : ¬(false = true))]
  · have hmono := roundv_mono dep arrival_time settings.rounding_granularity_minutes
      (by omega) hg2 hb
    by_cases heq : roundv dep settings.rounding_granularity_minutes =
        roundv arrival_time settings.rounding_granularity_minutes
    · rw [heq, slot_range_same] at hslot
      rcases List.mem_singleton.mp hslot with rfl
      have hclose := roundv_close arrival_time settings.rounding_granularity_minutes hg2 hb
      have hover : slot_overlaps (roundv arrival_time settings.rounding_granularity_minutes)
          settings.rounding_granularity_minutes (some (arrival_time - 10))
          (some (arrival_time + 30)) = true := by
        simp only [slot_overlaps]
        rw [if_neg (by omega : ¬(arrival_time + 30 ≤ arrival_time - 10))]
        simp only [Bool.and_eq_true, decide_eq_true_eq]
        omega
      simp only [ground_slot_flag, hover, Bool.or_true, Bool.not_true, Bool.false_and]
      rw [if_neg (by decide : ¬(false = true))]
    · have hran : slot_range (some (roundv arrival_time settings.rounding_granularity_minutes))
          (some (roundv dep settings.rounding_granularity_minutes))
          settings.rounding_granularity_minutes = [] := by
        simp only [slot_range]
        rw [if_pos (by omega)]
      rw [hran] at hslot
      exact absurd hslot (List.not_mem_nil slot)

theorem process_arrival_scan_none_partida (airport season : Str) (settings : Settings)
    (airport_country_map : List (Str × Str)) (departures : List Event)
    (used : List Str) (arrival : Event)
    (h : scan_candidates arrival.timestamp_evento arrival.numero_voo
      (arrival.timestamp_evento + settings.min_turnaround_minutes)
      (arrival.timestamp_evento + 36 * 60) used
      (departure_candidates departures arrival.cia arrival.act_type) none = none) :
    (process_arrival airport season settings airport_country_map departures used
      arrival).treated.partida_utc = none := by
  simp only [process_arrival, h]
  rfl

def c7_arr : Leg :=
  mkTestLeg (str "AA") (str "100") (str "738") (str "AAA") (str "XYZ") (some (-90)) (some 0)
    (str "f1")

def c7_dep : Leg :=
  mkTestLeg (str "AA") (str "101") (str "738") (str "XYZ") (str "BBB") (some 600) (some 700)
    (str "f2")

def c7_res : AirportLinkResult :=
  link_airport [c7_arr, c7_dep] (str "XYZ") (str "S25") c2w_settings []

/-- C7: (a) any linked arrival whose ground interval is covered, within the
one-minute tolerance, by the union of its clipped arrival and departure
service windows has every GroundSlot in its occupancy range flagged
passenger-service-active; (b) a linked flight whose 600-minute ground time
far exceeds both windows has at least one GroundSlot with the flag off. -/
theorem C7_ground_coverage_flag :
    (∀ (airport season : Str) (settings : Settings)
      (airport_country_map : List (Str × Str)) (departures : List Event)
      (used : List Str) (arrival : Event) (dep : Int),
      (settings.rounding_granularity_minutes = 5 ∨
        settings.rounding_granularity_minutes = 10 ∨
        settings.rounding_granularity_minutes = 15) →
      (process_arrival airport season settings airport_country_map departures used
        arrival).treated.partida_utc = some dep →
      ground_service_covered arrival.timestamp_evento dep →
      ∀ s ∈ (process_arrival airport season settings airport_country_map departures used
        arrival).solo, s.atendimento_embarque_desembarque = true) ∧
    (c7_res.voos_tratados.map (fun r => (r.link_status, r.solo_min)) =
      [(str "linked", 600)] ∧
      ∃ s ∈ c7_res.slots_solo, s.atendimento_embarque_desembarque = false) := by
  constructor
  · intro airport season settings airport_country_map departures used arrival dep hg hdep hcov
    cases hscan : scan_candidates arrival.timestamp_evento arrival.numero_voo
        (arrival.timestamp_evento + settings.min_turnaround_minutes)
        (arrival.timestamp_evento + 36 * 60) used
        (departure_candidates departures arrival.cia arrival.act_type) none with
    | none =>
        have h := process_arrival_scan_none_partida airport season settings airport_country_map
          departures used arrival hscan
        rw [h] at hdep
        exact absurd hdep (by simp)
    | some b =>
        have hpart := (process_arrival_scan_some airport season settings airport_country_map
          departures used arrival b hscan).2.1
        rw [hpart] at hdep
        injection hdep with hdep
        subst hdep
        intro s hs
        simp only [process_arrival, hscan, Option.map_some] at hs
        exact ground_slot_rows_all_flagged _ _ _ _ _ _ _ settings arrival.timestamp_evento
          b.cand.timestamp_evento _ _ hg (round_to_slot_some _ _) (round_to_slot_some _ _)
          hcov s hs
  · exact ⟨by decide, by decide⟩

theorem C7_ground_coverage_flag_witness :
    ((process_arrival (str "XYZ") (str "S25") c2w_settings [] [c2w_dep] []
      c2w_arrival).solo.all (fun s => s.atendimento_embarque_desembarque)) = true := by
  rw [List.all_eq_true]
  intro s hs
  exact C7_ground_coverage_flag.1 (str "XYZ") (str "S25") c2w_settings [] [c2w_dep] []
    c2w_arrival 150 (by decide) (by decide)
    (by unfold ground_service_covered ivUnionLen ivLen ivInterLen clipIv; decide) s hs

/-! ## C3: time-window filtering -/

def c3_leg : RawLeg :=
  { cia := str "AA", numero_voo := str "100", act_type := str "738", origem := str "AAA",
    destino := str "XYZ", dt_partida_utc := some 50, dt_chegada_utc := some 250,
    natureza := none, service_type := none, assentos_previstos := none,
    temporada := none, aeroporto_operacao := none }

/-- C3 counterexample: a leg that departs before the window start (50 < 100)
and arrives at or after it (250 ≥ 100) spans the start boundary, so the
claim says it is retained; the filter drops it, because the boundary-overlap
clause of the source tests `arrival < start ∧ departure ≥ start`, which no
leg with departure before arrival can satisfy. -/
theorem C3_counterexample_span_boundary :
    apply_time_window (some 100) (some 200) [c3_leg] = [] ∧
    c3_leg.dt_partida_utc = some 50 ∧ c3_leg.dt_chegada_utc = some 250 ∧
    (50 : Int) < 100 ∧ (100 : Int) ≤ 250 := by
  decide

theorem window_mask_spec (ws we : Int) (l : RawLeg) :
    window_mask (some ws) (some we) l = true ↔
      ((∃ a, l.dt_chegada_utc = some a ∧ ws ≤ a ∧ a < we) ∨
       (∃ d, l.dt_partida_utc = some d ∧ ws ≤ d ∧ d < we) ∨
       (∃ a d, l.dt_chegada_utc = some a ∧ l.dt_partida_utc = some d ∧
         a < ws ∧ ws ≤ d ∧ d < we)) := by
  rcases hc : l.dt_chegada_utc with _ | a <;> rcases hd : l.dt_partida_utc with _ | d <;>
    simp [window_mask, in_window, hc, hd] <;> omega

/-- C3 (amended): with a caller-supplied half-open window `[ws, we)`, a
parsed leg is retained exactly when one of its timestamps falls inside the
window, or when its **arrival precedes the window start while its departure
is at or after the start and before the window end** (the boundary-overlap
clause of the source, with the roles of the two endpoints opposite to the
claim). -/
theorem C3_window_filter_amended (legs : List RawLeg) (ws we : Int) (l : RawLeg) :
    l ∈ apply_time_window (some ws) (some we) legs ↔
      l ∈ legs ∧
      ((∃ a, l.dt_chegada_utc = some a ∧ ws ≤ a ∧ a < we) ∨
       (∃ d, l.dt_partida_utc = some d ∧ ws ≤ d ∧ d < we) ∨
       (∃ a d, l.dt_chegada_utc = some a ∧ l.dt_partida_utc = some d ∧
         a < ws ∧ ws ≤ d ∧ d < we)) := by
  have heq : apply_time_window (some ws) (some we) legs =
      legs.filter (window_mask (some ws) (some we)) := rfl
  rw [heq, List.mem_filter, window_mask_spec]

/-! ## C6: parser failure semantics -/

def c6_header_only : Str := str "cia;numero_voo;act_type;origem;destino"

def c6_missing_cols : Str := str "foo;bar\n1;2"

/-- C6 counterexample: a non-empty tabular payload carrying only the header
row has zero interpretable flight rows, yet `parse_schedule_text` returns an
empty result instead of failing. -/
theorem C6_counterexample_header_only :
    c6_header_only ≠ [] ∧ parse_schedule_text c6_header_only = Except.ok [] := by
  decide

/-- C6 (amended): the parser fails on an empty (or whitespace-only)
payload, on an SSIM payload from which no rows can be interpreted, and on
every tabular payload whose required columns cannot be resolved after
delimiter detection, CSV reading and header aliasing; a successful parse
implies a non-empty payload; but a non-empty tabular payload with
resolvable headers and zero data rows returns an empty result rather than
failing. -/
theorem C6_parse_failure_amended :
    (∀ t : Str, stripStr t = [] → ∃ e, parse_schedule_text t = Except.error e) ∧
    (∀ t : Str, looks_like_ssim (stripStr t) = true →
      parse_ssim_dataset (stripStr t) = [] → ∃ e, parse_schedule_text t = Except.error e) ∧
    (∀ t : Str, stripStr t ≠ [] → looks_like_ssim (stripStr t) = false →
      (REQUIRED_COLUMNS.all (fun c =>
        (renamed_header (pd_read_csv (detect_delimiter
          (joinNewlines ((splitLines (stripStr t)).take 5))) (stripStr t)).1).contains c))
        = false →
      parse_schedule_text t =
        Except.error (str "Arquivo SIROS nao possui colunas obrigatorias.")) ∧
    (∀ (t : Str) (rows : List RawLeg), parse_schedule_text t = Except.ok rows →
      stripStr t ≠ []) ∧
    parse_schedule_text c6_header_only = Except.ok [] ∧
    parse_schedule_text c6_missing_cols =
      Except.error (str "Arquivo SIROS nao possui colunas obrigatorias.") := by
  refine ⟨?_, ?_, ?_, ?_, by decide, by decide⟩
  · intro t ht
    simp only [parse_schedule_text, if_pos ht]
    exact ⟨_, rfl⟩
  · intro t hssim hrows
    by_cases ht : stripStr t = []
    · simp only [parse_schedule_text, if_pos ht]
      exact ⟨_, rfl⟩
    · simp only [parse_schedule_text, if_neg ht, hssim, if_pos hrows]
      exact ⟨str "Arquivo SIROS (SSIM) sem voos processaveis.", by simp⟩
  · intro t ht hssim hcols
    simp [parse_schedule_text, ht, hssim]
    simpa using hcols
  · intro t rows h ht
    simp only [parse_schedule_text, if_pos ht] at h
    exact Except.noConfusion h

theorem C6_parse_failure_amended_witness :
    ∃ e, parse_schedule_text (str "  ") = Except.error e :=
  C6_parse_failure_amended.1 (str "  ") (by decide)

/-! ## C8: determinism and identifier stability -/

/-- C8: two pipeline runs from identical parsed legs and identical
configuration produce identical results — the same season tag, the same
four output row tables (hence equal as sets, order included) and the same
generated identifiers — and every generated leg identifier is the name hash
of the stable composite key `(season, carrier, flight number, origin,
destination, row ordinal)`; the embedding consults no clock or randomness,
so the whole pipeline is a pure function of these inputs. -/
theorem C8_pipeline_deterministic (legs1 legs2 : List RawLeg) (t1 t2 : Option Str)
    (a1 a2 : Option (List Str)) (m1 m2 : List (Str × Str)) (s1 s2 : Settings)
    (w1 w2 w3 w4 : Option Int)
    (hl : legs1 = legs2) (ht : t1 = t2) (ha : a1 = a2) (hm : m1 = m2) (hs : s1 = s2)
    (hw1 : w1 = w3) (hw2 : w2 = w4) :
    run_pipeline_from_frame legs1 t1 a1 m1 s1 w1 w2 =
      run_pipeline_from_frame legs2 t2 a2 m2 s2 w3 w4 ∧
    ∀ (season : Str) (frame : List RawLeg),
      (assign_raw_ids frame season).map (fun l => l.flight_id) =
        frame.enum.map (fun p => uuid5 (raw_id_key season p.2 p.1)) := by
  subst hl ht ha hm hs hw1 hw2
  refine ⟨rfl, ?_⟩
  intro season frame
  simp only [assign_raw_ids, List.map_map]
  rfl

theorem C8_pipeline_deterministic_witness :
    run_pipeline_from_frame [c3_leg] (some (str "S25")) none [] c2w_settings none none =
      run_pipeline_from_frame [c3_leg] (some (str "S25")) none [] c2w_settings none none ∧
    (assign_raw_ids [c3_leg] (str "S25")).map (fun l => l.flight_id) =
      [c3_leg].enum.map (fun p => uuid5 (raw_id_key (str "S25") p.2 p.1)) :=
  ⟨(C8_pipeline_deterministic [c3_leg] [c3_leg] (some (str "S25")) (some (str "S25"))
      none none [] [] c2w_settings c2w_settings none none none none
      rfl rfl rfl rfl rfl rfl rfl).1,
    (C8_pipeline_deterministic [c3_leg] [c3_leg] (some (str "S25")) (some (str "S25"))
      none none [] [] c2w_settings c2w_settings none none none none
      rfl rfl rfl rfl rfl rfl rfl).2 (str "S25") [c3_leg]⟩
